import Mathlib

/-!
Verification development for the simple-monitor repository.

The Go sources of the repository are shallowly embedded here:

* float64 values that are always finite on the paths under study are
  modelled as rationals (ℚ); where a non-finite value (NaN / Inf) can
  actually arise (a float division with zero divisor) the value is
  modelled with the explicit `GoFloat` type below;
* Go ints that hold PIDs or tree depths are modelled as `Int`;
  slice lengths and capacities are modelled as `Nat`;
* Go strings (status labels, interface names) are modelled as `String`;
  the interface names examined by the network monitor are ASCII, so the
  byte-slicing `name[:k]` of Go corresponds to `String.take`;
* a Go slice-out-of-range panic is modelled with `Option` (`none` =
  panic), and a Go function returning `error` is modelled with
  `Except Unit` (the repository never inspects error contents, only
  their presence);
* the stateful collector objects are modelled by explicit state passing:
  the mutable history record is an input and an output of each tick.
-/

set_option maxRecDepth 10000

namespace SimpleMonitor

/-- Model of a Go float64 at the only place in the claims where a
non-finite value matters: a division whose divisor can be zero.
`finite q` is an ordinary finite value, `nan` is IEEE NaN (0/0) and
`inf` is an infinity (x/0 with x ≠ 0). -/
inductive GoFloat where
  | finite (q : ℚ)
  | nan
  | inf
  deriving DecidableEq, Repr, Inhabited

/-- Go float64 division `x / y` for finite operands: the IEEE result is
non-finite exactly when `y = 0` (NaN for 0/0, an infinity otherwise). -/
def goDiv (x y : ℚ) : GoFloat :=
  if y = 0 then (if x = 0 then GoFloat.nan else GoFloat.inf)
  else GoFloat.finite (x / y)

/-- A non-finite Go float (NaN or an infinity). -/
def GoFloat.nonFinite : GoFloat → Bool
  | GoFloat.finite _ => false
  | GoFloat.nan => true
  | GoFloat.inf => true

/-! ## Process monitor: data model (src/processmonitor/types.go)

Only the fields that the embedded functions read are carried. -/

/-- ProcessInfo (src/processmonitor/types.go): the fields used by
`buildProcessTree` and `collectTopProcesses`. -/
structure ProcessInfo where
  PID : Int
  Name : String
  ParentPID : Int
  CPUUsage : ℚ
  MemoryUsage : ℚ
  IOReadBytes : Nat
  IOWriteBytes : Nat
  Threads : Int
  deriving DecidableEq, Repr, Inhabited

/-- ProcessTreeInfo (src/processmonitor/types.go). -/
structure ProcessTreeInfo where
  PID : Int
  Name : String
  Children : List ProcessTreeInfo
  Level : Int
  IsLeaf : Bool

/-- Recursion core of buildProcessTree, phrased on `maxDepth.toNat`:
for every Go int maxDepth the guard `maxDepth <= 0` coincides with
`maxDepth.toNat = 0`, and on the positive depths the stored `Level`
values coincide with the Go ints. -/
def buildProcessTreeNat (processes : List ProcessInfo) :
    Nat → Int → List ProcessTreeInfo
  | 0, _ => []
  | d + 1, parentPID =>
    (processes.filter (fun p => p.ParentPID == parentPID)).map fun p =>
      let children := buildProcessTreeNat processes d p.PID
      { PID := p.PID
        Name := p.Name
        Children := children
        Level := ((d : Int) + 1)
        IsLeaf := children.isEmpty }

/-- buildProcessTree (src/processmonitor/types.go:463-491): recursive
reconstruction of the process forest.  The Go code returns an empty
slice when `maxDepth <= 0`; otherwise it appends, in input order, one
node for every process whose `ParentPID` equals `parentPID`, with
`Level := maxDepth` and children built by a recursive call at
`maxDepth - 1`; a node is a leaf exactly when that recursive call
returned no children. -/
def buildProcessTree (processes : List ProcessInfo) (parentPID : Int)
    (maxDepth : Int) : List ProcessTreeInfo :=
  buildProcessTreeNat processes maxDepth.toNat parentPID

/-- Fuel-indexed variant of `buildProcessTree`, used to state the
termination claim: one unit of fuel is consumed by every level of
recursion, and `none` means the fuel ran out before the recursion
reached its `maxDepth <= 0` base case. -/
def buildProcessTreeF (fuel : Nat) (processes : List ProcessInfo)
    (parentPID : Int) (maxDepth : Int) : Option (List ProcessTreeInfo) :=
  if maxDepth ≤ 0 then some []
  else
    match fuel with
    | 0 => none
    | fuel + 1 =>
      (processes.filter (fun p => p.ParentPID == parentPID)).mapM fun p => do
        let children ← buildProcessTreeF fuel processes p.PID (maxDepth - 1)
        pure { PID := p.PID
               Name := p.Name
               Children := children
               Level := maxDepth
               IsLeaf := children.isEmpty : ProcessTreeInfo }

mutual

/-- All PIDs in a tree, root first. -/
def treePids : ProcessTreeInfo → List Int
  | ⟨pid, _, children, _, _⟩ => pid :: forestPids children

/-- All PIDs occurring anywhere in a forest, in traversal order. -/
def forestPids : List ProcessTreeInfo → List Int
  | [] => []
  | t :: ts => treePids t ++ forestPids ts

end

/-! ## The Go standard library sort (`sort.Slice`)

`collectTopProcesses` (src/processmonitor/types.go:522-567) and the
per-monitor `collectProcessInfo` functions sort with `sort.Slice`,
whose documented contract is only "sorts the slice x given the provided
less function; the sort is not guaranteed to be stable".  The repository
requires Go 1.21 (README), whose `sort.Slice` is the pattern-defeating
quicksort of src/sort/zsortfunc.go, translated verbatim below.  The
index-based `data.Less(i, j)` of Go is `lt (arr[i]) (arr[j])` on the
current array, and `data.Swap(i, j)` swaps the elements in place. -/

section GoSort

variable {α : Type} [Inhabited α]

/-- In-place swap of two positions (no-op out of range, which never
happens on the executed paths). -/
def swapN (arr : Array α) (i j : Nat) : Array α :=
  let vi := arr.get! i
  let vj := arr.get! j
  (arr.setD i vj).setD j vi

/-- bits.Len for a uint: the number of bits needed to represent n. -/
def goBitsLen (n : Nat) : Nat :=
  if n = 0 then 0 else Nat.log2 n + 1

/-- nextPowerOfTwo of the Go sort package. -/
def nextPowerOfTwoGo (length : Nat) : Nat :=
  1 <<< goBitsLen length

/-- One step of the xorshift generator of the Go sort package
(a uint64 state). -/
def xorshiftNext (r : Nat) : Nat :=
  let r := Nat.xor r ((r <<< 13) % 2 ^ 64)
  let r := Nat.xor r (r >>> 7)
  Nat.xor r ((r <<< 17) % 2 ^ 64)

/-!
The Go loops below are written with an explicit structural fuel so that
every function reduces inside the kernel; each fuel argument is an
obvious upper bound on the number of iterations of the corresponding
loop, and the loop guard (not the fuel) determines the result, so the
translation computes exactly what the Go loop computes.
-/

/-- Inner loop of insertionSort_func: shift element j left while it is
less than its predecessor.  The loop runs at most j times (j decreases
towards a). -/
def insertionSortShift (lt : α → α → Bool) (a : Nat) :
    Nat → Array α → Nat → Array α
  | 0, arr, _ => arr
  | fuel + 1, arr, j =>
    if a < j then
      if lt (arr.get! j) (arr.get! (j - 1)) then
        insertionSortShift lt a fuel (swapN arr j (j - 1)) (j - 1)
      else arr
    else arr

/-- Outer loop of insertionSort_func over i = a+1 … b-1; at most b
iterations (i increases towards b). -/
def insertionSortOuter (lt : α → α → Bool) (a b : Nat) :
    Nat → Array α → Nat → Array α
  | 0, arr, _ => arr
  | fuel + 1, arr, i =>
    if i < b then
      insertionSortOuter lt a b fuel (insertionSortShift lt a i arr i) (i + 1)
    else arr

/-- insertionSort_func of the Go sort package on the range [a, b). -/
def insertionSortGo (lt : α → α → Bool) (arr : Array α) (a b : Nat) :
    Array α :=
  insertionSortOuter lt a b b arr (a + 1)

/-- siftDown_func of the Go sort package (max-heap sift on the range
[first+lo, first+hi)); at most hi iterations (root strictly increases
below hi). -/
def siftDownGo (lt : α → α → Bool) (hi first : Nat) :
    Nat → Array α → Nat → Array α
  | 0, arr, _ => arr
  | fuel + 1, arr, root =>
    let child := 2 * root + 1
    if child < hi then
      let child :=
        if child + 1 < hi ∧
            lt (arr.get! (first + child)) (arr.get! (first + child + 1)) then
          child + 1
        else child
      if lt (arr.get! (first + root)) (arr.get! (first + child)) then
        siftDownGo lt hi first fuel (swapN arr (first + root) (first + child)) child
      else arr
    else arr

/-- Heap construction loop of heapSort_func: siftDown for
i = (hi-1)/2 … 0, expressed with the countdown i+1 … 1. -/
def heapSortBuild (lt : α → α → Bool) (hi first : Nat) :
    Array α → Nat → Array α
  | arr, 0 => arr
  | arr, i + 1 => heapSortBuild lt hi first (siftDownGo lt hi first hi arr i) i

/-- Pop loop of heapSort_func: for i = hi-1 … 0 swap the maximum to the
end and restore the heap, expressed with the countdown i+1 … 1. -/
def heapSortPop (lt : α → α → Bool) (first : Nat) :
    Array α → Nat → Array α
  | arr, 0 => arr
  | arr, i + 1 =>
    heapSortPop lt first
      (siftDownGo lt i first i (swapN arr first (first + i)) 0) i

/-- heapSort_func of the Go sort package on the range [a, b). -/
def heapSortGo (lt : α → α → Bool) (arr : Array α) (a b : Nat) : Array α :=
  let first := a
  let hi := b - a
  let arr := heapSortBuild lt hi first arr ((hi - 1) / 2 + 1)
  heapSortPop lt first arr hi

/-- Hints returned by choosePivot_func. -/
inductive GoSortHint where
  | unknown
  | increasing
  | decreasing
  deriving DecidableEq, Repr

/-- order2_func: order two indices by the values they point at,
counting a swap when they are exchanged. -/
def order2Go (lt : α → α → Bool) (arr : Array α) (a b swaps : Nat) :
    Nat × Nat × Nat :=
  if lt (arr.get! b) (arr.get! a) then (b, a, swaps + 1) else (a, b, swaps)

/-- median_func: index of the median of the values at three indices. -/
def medianGo (lt : α → α → Bool) (arr : Array α) (a b c swaps : Nat) :
    Nat × Nat :=
  let r1 := order2Go lt arr a b swaps
  let r2 := order2Go lt arr r1.2.1 c r1.2.2
  let r3 := order2Go lt arr r1.1 r2.1 r2.2.2
  (r3.2.1, r3.2.2)

/-- medianAdjacent_func: median of the values at i-1, i, i+1. -/
def medianAdjacentGo (lt : α → α → Bool) (arr : Array α) (i swaps : Nat) :
    Nat × Nat :=
  medianGo lt arr (i - 1) i (i + 1) swaps

/-- choosePivot_func of the Go sort package: median (of medians) pivot
selection with a sortedness hint derived from the number of swaps. -/
def choosePivotGo (lt : α → α → Bool) (arr : Array α) (a b : Nat) :
    Nat × GoSortHint :=
  let l := b - a
  let i := a + l / 4 * 1
  let j := a + l / 4 * 2
  let k := a + l / 4 * 3
  let (j, swaps) :=
    if 8 ≤ l then
      if 50 ≤ l then
        let r1 := medianAdjacentGo lt arr i 0
        let r2 := medianAdjacentGo lt arr j r1.2
        let r3 := medianAdjacentGo lt arr k r2.2
        medianGo lt arr r1.1 r2.1 r3.1 r3.2
      else medianGo lt arr i j k 0
    else (j, 0)
  if swaps = 0 then (j, GoSortHint.increasing)
  else if swaps = 12 then (j, GoSortHint.decreasing)
  else (j, GoSortHint.unknown)

/-- reverseRange_func of the Go sort package, written on its loop
variables (the Go function starts with i = a, j = b-1); at most j
iterations. -/
def reverseRangeLoop : Nat → Array α → Nat → Nat → Array α
  | 0, arr, _, _ => arr
  | fuel + 1, arr, i, j =>
    if i < j then reverseRangeLoop fuel (swapN arr i j) (i + 1) (j - 1)
    else arr

/-- reverseRange_func on the range [a, b). -/
def reverseRangeGo (arr : Array α) (a b : Nat) : Array α :=
  reverseRangeLoop b arr a (b - 1)

/-- breakPatterns_func of the Go sort package: swap three middle
elements with pseudo-random positions. -/
def breakPatternsGo (arr : Array α) (a b : Nat) : Array α :=
  let length := b - a
  if 8 ≤ length then
    let modulus := nextPowerOfTwoGo length
    let idx := a + length / 4 * 2 - 1
    let step := fun (st : Array α × Nat) (i : Nat) =>
      let r := xorshiftNext st.2
      let other := Nat.land r (modulus - 1)
      let other := if length ≤ other then other - length else other
      (swapN st.1 (idx - 1 + i) (a + other), r)
    (((List.range 3).foldl step (arr, length))).1
  else arr

/-- Advance loop of partition_func / partitionEqual_func: move i right
while the guard holds.  Indices are Go ints; the loop runs at most
j - i + 1 times. -/
def partitionAdvance (guard : Array α → Int → Bool) :
    Nat → Array α → Int → Int → Int
  | 0, _, i, _ => i
  | fuel + 1, arr, i, j =>
    if i ≤ j then
      if guard arr i then partitionAdvance guard fuel arr (i + 1) j else i
    else i

/-- Retreat loop of partition_func / partitionEqual_func: move j left
while the guard holds; at most j - i + 1 iterations. -/
def partitionRetreat (guard : Array α → Int → Bool) :
    Nat → Array α → Int → Int → Int
  | 0, _, _, j => j
  | fuel + 1, arr, i, j =>
    if i ≤ j then
      if guard arr j then partitionRetreat guard fuel arr i (j - 1) else j
    else j

/-- Main exchange loop of partition_func; the two pointers close by at
least two positions per iteration, so j - i + 1 iterations suffice. -/
def partitionLoop (lt : α → α → Bool) (a : Nat) :
    Nat → Array α → Int → Int → Int × Array α
  | 0, arr, _, j => (j, arr)
  | fuel + 1, arr, i, j =>
    let i2 := partitionAdvance (fun arr i => lt (arr.get! i.toNat) (arr.get! a))
      ((j + 1 - i).toNat) arr i j
    let j2 := partitionRetreat (fun arr j => !lt (arr.get! j.toNat) (arr.get! a))
      ((j + 1 - i2).toNat) arr i2 j
    if i2 ≤ j2 then
      partitionLoop lt a fuel (swapN arr i2.toNat j2.toNat) (i2 + 1) (j2 - 1)
    else (j2, arr)

/-- partition_func of the Go sort package: two-pointer Hoare partition
of [a, b) around the value at `pivot`; returns the final pivot
position, whether the range was already partitioned, and the array. -/
def partitionGo (lt : α → α → Bool) (arr : Array α) (a b pivot : Nat) :
    Nat × Bool × Array α :=
  let arr := swapN arr a pivot
  let i : Int := a + 1
  let j : Int := b - 1
  let i := partitionAdvance (fun arr i => lt (arr.get! i.toNat) (arr.get! a))
    ((j + 1 - i).toNat) arr i j
  let j := partitionRetreat (fun arr j => !lt (arr.get! j.toNat) (arr.get! a))
    ((j + 1 - i).toNat) arr i j
  if i > j then
    (j.toNat, true, swapN arr j.toNat a)
  else
    let arr := swapN arr i.toNat j.toNat
    let r := partitionLoop lt a (b + 1) arr (i + 1) (j - 1)
    (r.1.toNat, false, swapN r.2 r.1.toNat a)

/-- Main exchange loop of partitionEqual_func; returns the final value
of i. -/
def partitionEqualLoopGo (lt : α → α → Bool) (a : Nat) :
    Nat → Array α → Int → Int → Int × Array α
  | 0, arr, i, _ => (i, arr)
  | fuel + 1, arr, i, j =>
    let i2 := partitionAdvance (fun arr i => !lt (arr.get! a) (arr.get! i.toNat))
      ((j + 1 - i).toNat) arr i j
    let j2 := partitionRetreat (fun arr j => lt (arr.get! a) (arr.get! j.toNat))
      ((j + 1 - i2).toNat) arr i2 j
    if i2 ≤ j2 then
      partitionEqualLoopGo lt a fuel (swapN arr i2.toNat j2.toNat) (i2 + 1) (j2 - 1)
    else (i2, arr)

/-- partitionEqual_func of the Go sort package: partitions [a, b) into
elements equal to and elements greater than the value at `pivot`;
returns the first index of the greater part. -/
def partitionEqualGo (lt : α → α → Bool) (arr : Array α) (a b pivot : Nat) :
    Nat × Array α :=
  let arr := swapN arr a pivot
  let r := partitionEqualLoopGo lt a (b + 1) arr ((a : Int) + 1) ((b : Int) - 1)
  (r.1.toNat, r.2)

/-- Scan of partialInsertionSort_func: move i right past the sorted
prefix; at most b iterations. -/
def pisAdvance (lt : α → α → Bool) (b : Nat) : Nat → Array α → Nat → Nat
  | 0, _, i => i
  | fuel + 1, arr, i =>
    if i < b then
      if !lt (arr.get! i) (arr.get! (i - 1)) then pisAdvance lt b fuel arr (i + 1)
      else i
    else i

/-- Left-shift loop of partialInsertionSort_func (Go loop indices j,
j-1 with guard j >= 1); at most j iterations. -/
def pisShiftLeft (lt : α → α → Bool) : Nat → Array α → Nat → Array α
  | 0, arr, _ => arr
  | fuel + 1, arr, j =>
    if 1 ≤ j then
      if lt (arr.get! j) (arr.get! (j - 1)) then
        pisShiftLeft lt fuel (swapN arr j (j - 1)) (j - 1)
      else arr
    else arr

/-- Right-shift loop of partialInsertionSort_func; at most b
iterations. -/
def pisShiftRight (lt : α → α → Bool) (b : Nat) : Nat → Array α → Nat → Array α
  | 0, arr, _ => arr
  | fuel + 1, arr, j =>
    if j < b then
      if lt (arr.get! j) (arr.get! (j - 1)) then
        pisShiftRight lt b fuel (swapN arr j (j - 1)) (j + 1)
      else arr
    else arr

/-- Step loop of partialInsertionSort_func (at most maxSteps = 5
adjacent out-of-order pairs are repaired). -/
def pisSteps (lt : α → α → Bool) (a b : Nat) :
    Nat → Array α → Nat → Bool × Array α
  | 0, arr, _ => (false, arr)
  | step + 1, arr, i =>
    let i := pisAdvance lt b b arr i
    if i = b then (true, arr)
    else if b - a < 50 then (false, arr)
    else
      let arr := swapN arr i (i - 1)
      let arr := if 2 ≤ i - a then pisShiftLeft lt (i - 1) arr (i - 1) else arr
      let arr := if 2 ≤ b - i then pisShiftRight lt b b arr (i + 1) else arr
      pisSteps lt a b step arr i

/-- partialInsertionSort_func of the Go sort package: returns whether
[a, b) ended up sorted, together with the (possibly modified) array. -/
def partialInsertionSortGo (lt : α → α → Bool) (arr : Array α) (a b : Nat) :
    Bool × Array α :=
  pisSteps lt a b 5 arr (a + 1)

/-- pdqsort_func of the Go sort package (the algorithm behind
`sort.Slice` since Go 1.19).  The Go for-loop with its loop-carried
`wasBalanced` / `wasPartitioned` state becomes a tail recursion; the
explicit fuel only bounds the recursion depth and is never exhausted
when it starts at least one above the range length, because every
self-call strictly shrinks the range b - a. -/
def pdqsortLoop (lt : α → α → Bool) :
    Nat → Array α → Nat → Nat → Nat → Bool → Bool → Array α
  | 0, arr, _, _, _, _, _ => arr
  | fuel + 1, arr, a, b, limit, wasBalanced, wasPartitioned =>
    let length := b - a
    if length ≤ 12 then insertionSortGo lt arr a b
    else if limit = 0 then heapSortGo lt arr a b
    else
      let st :=
        if !wasBalanced then (breakPatternsGo arr a b, limit - 1)
        else (arr, limit)
      let arr := st.1
      let limit := st.2
      let pc := choosePivotGo lt arr a b
      let st2 :=
        if pc.2 == GoSortHint.decreasing then
          (reverseRangeGo arr a b, b - 1 - (pc.1 - a), GoSortHint.increasing)
        else (arr, pc.1, pc.2)
      let arr := st2.1
      let pivot := st2.2.1
      let hint := st2.2.2
      let pis :=
        if wasBalanced && wasPartitioned && (hint == GoSortHint.increasing) then
          partialInsertionSortGo lt arr a b
        else (false, arr)
      if pis.1 then pis.2
      else
        let arr := pis.2
        if decide (0 < a) && !lt (arr.get! (a - 1)) (arr.get! pivot) then
          let pe := partitionEqualGo lt arr a b pivot
          pdqsortLoop lt fuel pe.2 pe.1 b limit wasBalanced wasPartitioned
        else
          let pr := partitionGo lt arr a b pivot
          let mid := pr.1
          let wasPartitioned := pr.2.1
          let arr := pr.2.2
          let leftLen := mid - a
          let rightLen := b - mid
          let wasBalanced := decide (length / 8 ≤ min leftLen rightLen)
          if leftLen < rightLen then
            let arr := pdqsortLoop lt fuel arr a mid limit true true
            pdqsortLoop lt fuel arr (mid + 1) b limit wasBalanced wasPartitioned
          else
            let arr := pdqsortLoop lt fuel arr (mid + 1) b limit true true
            pdqsortLoop lt fuel arr a mid limit wasBalanced wasPartitioned

/-- sort.Slice of Go 1.21 as a function on lists: pdqsort over the
whole range with the depth limit bits.Len(length). -/
def goSortSlice (lt : α → α → Bool) (l : List α) : List α :=
  let n := l.length
  (pdqsortLoop lt (n + 1) l.toArray 0 n (goBitsLen n) true true).toList

end GoSort

/-! ## Top-N selection (src/processmonitor/types.go:522-567) -/

/-- The truncation step of every ranking:
`if len(s) > maxProcesses { s = s[:maxProcesses] }`. -/
def limitToMax {α : Type} (maxProcesses : Nat) (l : List α) : List α :=
  if maxProcesses < l.length then l.take maxProcesses else l

/-- The slice of ProcessMonitorData used by `collectTopProcesses`. -/
structure ProcessMonitorData where
  ProcessInfos : List ProcessInfo := []
  TopCPUProcesses : List ProcessInfo := []
  TopMemoryProcesses : List ProcessInfo := []
  TopIOProcesses : List ProcessInfo := []
  TopThreadProcesses : List ProcessInfo := []
  deriving DecidableEq, Repr, Inhabited

/-- The strict descending CPU comparator of collectTopProcesses. -/
def cpuDescLt (x y : ProcessInfo) : Bool := decide (x.CPUUsage > y.CPUUsage)

/-- The strict descending memory comparator of collectTopProcesses. -/
def memDescLt (x y : ProcessInfo) : Bool := decide (x.MemoryUsage > y.MemoryUsage)

/-- The strict descending I/O-bytes comparator of collectTopProcesses. -/
def ioDescLt (x y : ProcessInfo) : Bool :=
  decide (x.IOReadBytes + x.IOWriteBytes > y.IOReadBytes + y.IOWriteBytes)

/-- The strict descending thread-count comparator of
collectTopProcesses. -/
def threadDescLt (x y : ProcessInfo) : Bool := decide (x.Threads > y.Threads)

/-- collectTopProcesses (src/processmonitor/types.go:522-567): for each
of the four ranking dimensions, copy the process list, sort the copy
with `sort.Slice` under a strict descending comparator, and truncate to
`MaxProcesses` (default 50).  Go's explicit `copy` before sorting means
the shared input slice is never mutated, which the persistent lists
model by construction. -/
def collectTopProcesses (maxProcesses : Nat) (d : ProcessMonitorData) :
    ProcessMonitorData :=
  let cpuProcesses := limitToMax maxProcesses (goSortSlice cpuDescLt d.ProcessInfos)
  let memoryProcesses := limitToMax maxProcesses (goSortSlice memDescLt d.ProcessInfos)
  let ioProcesses := limitToMax maxProcesses (goSortSlice ioDescLt d.ProcessInfos)
  let threadProcesses := limitToMax maxProcesses (goSortSlice threadDescLt d.ProcessInfos)
  { d with
    TopCPUProcesses := cpuProcesses
    TopMemoryProcesses := memoryProcesses
    TopIOProcesses := ioProcesses
    TopThreadProcesses := threadProcesses }

/-! ## Network monitor (src/networkmonitor/collector.go) -/

/-- One entry of data.LatencyInfo; only the fields read by
`analyzeNetworkStatus` are carried. -/
structure NetworkLatencyInfo where
  Latency : ℚ
  PacketLoss : ℚ
  deriving DecidableEq, Repr, Inhabited

/-- The fields of NetworkMonitorConfig read by the embedded functions;
defaults as set by NewNetworkMonitorCollector. -/
structure NetworkMonitorConfig where
  LatencyWarning : ℚ := 100
  LatencyCritical : ℚ := 200
  PacketLossWarning : ℚ := 5
  BandwidthWarning : ℚ := 80
  InterfaceFilter : String := ""
  deriving DecidableEq, Repr, Inhabited

/-- The fields of NetworkMonitorData read and written by
`analyzeNetworkStatus`.  `Connections` is modelled by its length, the
only thing the analyzer reads.  The defaults are the Go zero values of
the fields of the freshly allocated struct in
CollectNetworkMonitorData (in particular `NetworkStatus` starts as the
empty string). -/
structure NetworkMonitorData where
  LatencyInfo : List NetworkLatencyInfo := []
  BandwidthUtilization : ℚ := 0
  Connections : Nat := 0
  NetworkStatus : String := ""
  HighLatencyWarning : Bool := false
  PacketLossWarning : Bool := false
  BandwidthWarning : Bool := false
  ConnectionWarning : Bool := false
  deriving DecidableEq, Repr, Inhabited

/-- The latency loop of analyzeNetworkStatus
(src/networkmonitor/collector.go:462-473): a critical latency sets the
status and breaks; a warning latency sets the flag and raises the
status only when it currently reads "Normal". -/
def latencyScan (cfg : NetworkMonitorConfig) :
    List NetworkLatencyInfo → NetworkMonitorData → NetworkMonitorData
  | [], d => d
  | l :: rest, d =>
    if cfg.LatencyCritical ≤ l.Latency then
      { d with NetworkStatus := "Critical", HighLatencyWarning := true }
    else if cfg.LatencyWarning ≤ l.Latency then
      let d := { d with HighLatencyWarning := true }
      let d :=
        if d.NetworkStatus = "Normal" then { d with NetworkStatus := "Warning" }
        else d
      latencyScan cfg rest d
    else latencyScan cfg rest d

/-- The packet-loss loop of analyzeNetworkStatus
(src/networkmonitor/collector.go:476-484): the first entry at or above
the threshold sets the flag, optionally raises "Normal" to "Warning",
and breaks. -/
def packetLossScan (cfg : NetworkMonitorConfig) :
    List NetworkLatencyInfo → NetworkMonitorData → NetworkMonitorData
  | [], d => d
  | l :: rest, d =>
    if cfg.PacketLossWarning ≤ l.PacketLoss then
      let d := { d with PacketLossWarning := true }
      if d.NetworkStatus = "Normal" then { d with NetworkStatus := "Warning" }
      else d
    else packetLossScan cfg rest d

/-- analyzeNetworkStatus (src/networkmonitor/collector.go:459-506). -/
def analyzeNetworkStatus (cfg : NetworkMonitorConfig)
    (d : NetworkMonitorData) : NetworkMonitorData :=
  let d := latencyScan cfg d.LatencyInfo d
  let d := packetLossScan cfg d.LatencyInfo d
  let d :=
    if cfg.BandwidthWarning ≤ d.BandwidthUtilization then
      let d := { d with BandwidthWarning := true }
      if d.NetworkStatus = "Normal" then { d with NetworkStatus := "Warning" }
      else d
    else d
  let d :=
    if d.Connections = 0 then
      let d := { d with ConnectionWarning := true }
      if d.NetworkStatus = "Normal" then { d with NetworkStatus := "Warning" }
      else d
    else d
  if d.NetworkStatus = "" then { d with NetworkStatus := "Normal" } else d

/-- Go byte-slicing `name[:k]`: defined only when k does not exceed the
length (otherwise Go panics with a slice-bounds error, modelled as
`none`).  The interface names concerned are ASCII, so bytes coincide
with characters. -/
def goStringPrefixSlice (s : String) (k : Nat) : Option String :=
  if k ≤ s.length then some (s.take k) else none

/-- getInterfaceType (src/networkmonitor/collector.go:539-551).  The
Go conditions slice `name[:2]` and `name[:4]` with short-circuit
evaluation and no length checks; a failing slice is a panic (`none`). -/
def getInterfaceType (name : String) : Option String := do
  let s2 ← goStringPrefixSlice name 2
  if s2 = "wl" then pure "WiFi"
  else do
    let s4 ← goStringPrefixSlice name 4
    if s4 = "wlan" then pure "WiFi"
    else if s2 = "et" then pure "Ethernet"
    else if s4 = "eth" then pure "Ethernet"
    else if s2 = "lo" then pure "Loopback"
    else if s2 = "vm" then pure "Virtual"
    else if s2 = "vb" then pure "Virtual"
    else pure "Unknown"

/-- isLoopbackInterface (src/networkmonitor/collector.go:573-576):
`name == "lo" || name[:2] == "lo"` with short-circuit evaluation, so
the slice panics only when the name differs from "lo" and is shorter
than two bytes. -/
def isLoopbackInterface (name : String) : Option Bool :=
  if name = "lo" then some true
  else do
    let s2 ← goStringPrefixSlice name 2
    pure (s2 = "lo")

/-- isVirtualInterface (src/networkmonitor/collector.go:607-615);
this helper checks lengths before slicing and never panics. -/
def isVirtualInterface (name : String) : Bool :=
  ["vm", "vb", "veth", "docker", "br-", "virbr"].any fun p =>
    decide (p.length ≤ name.length) && decide (name.take p.length = p)

/-- getInterfaceStatus (src/networkmonitor/collector.go:554-561). -/
def getInterfaceStatus (flags : List String) : String :=
  if flags.contains "up" then "up" else "down"

/-- isInterfaceUp (src/networkmonitor/collector.go:564-571). -/
def isInterfaceUp (flags : List String) : Bool :=
  flags.contains "up"

/-- One address of a gopsutil InterfaceStat. -/
structure GoNetInterfaceAddr where
  Addr : String
  deriving DecidableEq, Repr, Inhabited

/-- The fields of a gopsutil InterfaceStat read by
collectInterfaceInfo. -/
structure GoNetInterfaceStat where
  Name : String
  MTU : Int
  HardwareAddr : String
  Flags : List String
  Addrs : List GoNetInterfaceAddr
  deriving DecidableEq, Repr, Inhabited

/-- NetworkInterfaceInfo (src/unnamed/part_004); the Go field `Type`
is called `IfaceType` because `Type` is reserved in Lean. -/
structure NetworkInterfaceInfo where
  Name : String
  DisplayName : String
  IfaceType : String
  Status : String
  MTU : Int
  Speed : Nat
  MACAddress : String
  IPAddress : String
  SubnetMask : String
  Gateway : String
  DNSServers : List String
  IsUp : Bool
  IsLoopback : Bool
  IsVirtual : Bool
  deriving DecidableEq, Repr, Inhabited

/-- The per-interface body of collectInterfaceInfo
(src/networkmonitor/collector.go:132-182), applied to the list
returned by the provider: interfaces failing the name filter or
without addresses are skipped; for the rest the struct literal is
built, evaluating `getInterfaceType` before `isLoopbackInterface` as
the Go field order does, and a panic in either aborts the collection
(`none`). -/
def collectInterfaceInfo (cfg : NetworkMonitorConfig) :
    List GoNetInterfaceStat → Option (List NetworkInterfaceInfo)
  | [] => some []
  | iface :: rest =>
    if cfg.InterfaceFilter ≠ "" ∧ iface.Name ≠ cfg.InterfaceFilter then
      collectInterfaceInfo cfg rest
    else if iface.Addrs.length = 0 then
      collectInterfaceInfo cfg rest
    else do
      let ty ← getInterfaceType iface.Name
      let isLo ← isLoopbackInterface iface.Name
      let info : NetworkInterfaceInfo :=
        { Name := iface.Name
          DisplayName := iface.Name
          IfaceType := ty
          Status := getInterfaceStatus iface.Flags
          MTU := iface.MTU
          Speed := 1000
          MACAddress := iface.HardwareAddr
          IPAddress := (iface.Addrs.headD default).Addr
          SubnetMask := (iface.Addrs.headD default).Addr
          Gateway := ""
          DNSServers := []
          IsUp := isInterfaceUp iface.Flags
          IsLoopback := isLo
          IsVirtual := isVirtualInterface iface.Name }
      let restInfos ← collectInterfaceInfo cfg rest
      pure (info :: restInfos)

/-! ## Disk monitor (src/diskmonitor/collector.go)

The gopsutil calls are the external boundary: each call site of the
tick is one field of `DiskProvider`, either an error or the raw value
it returned.  Go map iteration over the I/O counters has no specified
order; the provider field carries the association list in the order
the iteration produced. -/

/-- The fields of DiskMonitorConfig read by the embedded functions;
defaults as in NewDiskMonitorCollector. -/
structure DiskMonitorConfig where
  MaxProcesses : Nat := 20
  LowSpaceWarning : ℚ := 80
  LowSpaceCritical : ℚ := 90
  TempWarning : ℚ := 50
  TempCritical : ℚ := 60
  IOBottleneckThreshold : ℚ := 80
  ShowPartitions : Bool := true
  ShowIOStats : Bool := true
  ShowTemperature : Bool := true
  ShowHealth : Bool := true
  ShowProcesses : Bool := true
  ShowPerformance : Bool := true
  MinIOUsage : ℚ := 1
  ProcessNameFilter : String := ""
  DeviceFilter : String := ""
  MountpointFilter : String := ""
  deriving DecidableEq, Repr, Inhabited

/-- A gopsutil PartitionStat. -/
structure DiskPartitionRaw where
  Device : String
  Mountpoint : String
  Fstype : String
  deriving DecidableEq, Repr, Inhabited

/-- A gopsutil UsageStat. -/
structure DiskUsageRaw where
  Total : Nat
  Free : Nat
  Used : Nat
  UsedPercent : ℚ
  InodesTotal : Nat
  InodesFree : Nat
  InodesUsed : Nat
  deriving DecidableEq, Repr, Inhabited

/-- DiskPartitionInfo (src/diskmonitor/diskmonitor.go). -/
structure DiskPartitionInfo where
  Device : String
  Mountpoint : String
  Fstype : String
  Total : Nat
  Free : Nat
  Used : Nat
  UsagePercent : ℚ
  InodesTotal : Nat
  InodesFree : Nat
  InodesUsed : Nat
  deriving DecidableEq, Repr, Inhabited

/-- A gopsutil IOCountersStat for one device. -/
structure DiskIOCounterRaw where
  ReadCount : Nat
  WriteCount : Nat
  ReadBytes : Nat
  WriteBytes : Nat
  ReadTime : Nat
  WriteTime : Nat
  deriving DecidableEq, Repr, Inhabited

/-- DiskIOInfo (src/diskmonitor/diskmonitor.go); the struct is named
after its Go name with a `Rec` suffix to avoid a reserved suffix. -/
structure DiskIORec where
  DeviceName : String
  ReadCount : Nat
  WriteCount : Nat
  ReadBytes : Nat
  WriteBytes : Nat
  ReadTime : Nat
  WriteTime : Nat
  ReadSpeed : ℚ
  WriteSpeed : ℚ
  IOPS : ℚ
  Utilization : ℚ
  deriving DecidableEq, Repr, Inhabited

/-- DiskTemperatureInfo (placeholder data in the source). -/
structure DiskTemperatureInfo where
  DeviceName : String
  Temperature : ℚ
  MaxTemperature : ℚ
  Status : String
  deriving DecidableEq, Repr, Inhabited

/-- DiskHealthInfo (placeholder data in the source; only the fields
read later are carried). -/
structure DiskHealthInfo where
  DeviceName : String
  HealthStatus : String
  deriving DecidableEq, Repr, Inhabited

/-- The per-process provider results consumed by the disk
collectProcessInfo: one entry per process handle, each gopsutil
sub-call either failing (`none`) or returning its value.  `TotalIOCnt`
stands for the Go field TotalIO (read + write operation counts). -/
structure DiskProcEntry where
  Pid : Int
  IOCounterRes : Option DiskIOCounterRaw
  NameRes : Option String
  StatusRes : Option (List String)
  UserRes : Option String
  deriving DecidableEq, Repr, Inhabited

/-- DiskProcessInfo (src/diskmonitor/diskmonitor.go); the Go field
TotalIO is called TotalIOCnt here. -/
structure DiskProcessInfo where
  PID : Int
  Name : String
  ReadBytes : Nat
  WriteBytes : Nat
  ReadSpeed : ℚ
  WriteSpeed : ℚ
  TotalIOCnt : Nat
  IOPS : ℚ
  Status : String
  User : String
  deriving DecidableEq, Repr, Inhabited

/-- The fields of DiskMonitorData involved in the embedded tick. -/
structure DiskMonitorData where
  Partitions : List DiskPartitionInfo := []
  TotalSpace : Nat := 0
  UsedSpace : Nat := 0
  FreeSpace : Nat := 0
  UsagePercent : ℚ := 0
  DiskIOs : List DiskIORec := []
  TotalReadSpeed : ℚ := 0
  TotalWriteSpeed : ℚ := 0
  AverageIOPS : GoFloat := GoFloat.finite 0
  DiskTemperatures : List DiskTemperatureInfo := []
  DiskHealth : List DiskHealthInfo := []
  TopProcesses : List DiskProcessInfo := []
  DiskUtilization : ℚ := 0
  DiskStatus : String := ""
  LowSpaceWarning : Bool := false
  HighTempWarning : Bool := false
  IOBottleneck : Bool := false
  HealthWarning : Bool := false
  deriving DecidableEq, Repr, Inhabited

/-- collectPartitionInfo (src/diskmonitor/collector.go:124-183): each
partition is paired with the result of its disk.Usage call; filtered or
unreadable partitions are skipped, the rest accumulate the totals. -/
def collectPartitionInfo (cfg : DiskMonitorConfig)
    (parts : List (DiskPartitionRaw × Option DiskUsageRaw))
    (d : DiskMonitorData) : DiskMonitorData :=
  let step := fun (acc : List DiskPartitionInfo × Nat × Nat × Nat)
      (pu : DiskPartitionRaw × Option DiskUsageRaw) =>
    let p := pu.1
    if cfg.DeviceFilter ≠ "" ∧ p.Device ≠ cfg.DeviceFilter then acc
    else if cfg.MountpointFilter ≠ "" ∧ p.Mountpoint ≠ cfg.MountpointFilter then acc
    else
      match pu.2 with
      | none => acc
      | some usage =>
        (acc.1 ++ [{ Device := p.Device, Mountpoint := p.Mountpoint
                     Fstype := p.Fstype, Total := usage.Total
                     Free := usage.Free, Used := usage.Used
                     UsagePercent := usage.UsedPercent
                     InodesTotal := usage.InodesTotal
                     InodesFree := usage.InodesFree
                     InodesUsed := usage.InodesUsed }],
         acc.2.1 + usage.Total, acc.2.2.1 + usage.Used, acc.2.2.2 + usage.Free)
  let r := parts.foldl step ([], 0, 0, 0)
  let d := { d with Partitions := r.1, TotalSpace := r.2.1
                    UsedSpace := r.2.2.1, FreeSpace := r.2.2.2 }
  if 0 < r.2.1 then
    { d with UsagePercent := ((r.2.2.1 : ℚ) / (r.2.1 : ℚ)) * 100 }
  else d

/-- collectIOInfo (src/diskmonitor/collector.go:185-231): derives one
record per device and the totals; `AverageIOPS` divides by the device
count with no emptiness guard, so zero devices produce the IEEE result
0/0 = NaN. -/
def collectIOInfo (counters : List (String × DiskIOCounterRaw))
    (d : DiskMonitorData) : DiskMonitorData :=
  let step := fun (acc : List DiskIORec × ℚ × ℚ × ℚ)
      (dc : String × DiskIOCounterRaw) =>
    let c := dc.2
    let readSpeed : ℚ := (c.ReadBytes : ℚ) / (1024 * 1024)
    let writeSpeed : ℚ := (c.WriteBytes : ℚ) / (1024 * 1024)
    let iops : ℚ := ((c.ReadCount + c.WriteCount : Nat) : ℚ)
    let utilization : ℚ := ((c.ReadTime + c.WriteTime : Nat) : ℚ) / 1000
    (acc.1 ++ [{ DeviceName := dc.1
                 ReadCount := c.ReadCount, WriteCount := c.WriteCount
                 ReadBytes := c.ReadBytes, WriteBytes := c.WriteBytes
                 ReadTime := c.ReadTime, WriteTime := c.WriteTime
                 ReadSpeed := readSpeed, WriteSpeed := writeSpeed
                 IOPS := iops, Utilization := utilization }],
     acc.2.1 + readSpeed, acc.2.2.1 + writeSpeed, acc.2.2.2 + iops)
  let r := counters.foldl step ([], 0, 0, 0)
  { d with DiskIOs := r.1
           TotalReadSpeed := r.2.1
           TotalWriteSpeed := r.2.2.1
           AverageIOPS := goDiv r.2.2.2 ((r.1.length : Nat) : ℚ) }

/-- collectTemperatureInfo (src/diskmonitor/collector.go:233-260):
placeholder records, one per partition. -/
def collectTemperatureInfo (parts : List DiskPartitionRaw)
    (d : DiskMonitorData) : DiskMonitorData :=
  { d with DiskTemperatures := parts.map fun p =>
      { DeviceName := p.Device, Temperature := 35
        MaxTemperature := 60, Status := "Normal" } }

/-- collectHealthInfo (src/diskmonitor/collector.go:262-294):
placeholder records, one per partition. -/
def collectHealthInfo (parts : List DiskPartitionRaw)
    (d : DiskMonitorData) : DiskMonitorData :=
  { d with DiskHealth := parts.map fun p =>
      { DeviceName := p.Device, HealthStatus := "Good" } }

/-- The per-process body of the disk collectProcessInfo
(src/diskmonitor/collector.go:296-376): processes whose IOCounters
call failed are skipped, other failing sub-calls fall back to
defaults, the usage filters drop small or name-filtered entries; the
survivors are sorted by TotalIOCnt with sort.Slice and truncated. -/
def collectDiskProcessInfo (cfg : DiskMonitorConfig)
    (procs : List DiskProcEntry) (d : DiskMonitorData) : DiskMonitorData :=
  let entries := procs.foldl (fun acc e =>
    match e.IOCounterRes with
    | none => acc
    | some c =>
      let name := e.NameRes.getD "Unknown"
      let status := e.StatusRes.getD ["Unknown"]
      let user := e.UserRes.getD "Unknown"
      let readSpeed : ℚ := (c.ReadBytes : ℚ) / (1024 * 1024)
      let writeSpeed : ℚ := (c.WriteBytes : ℚ) / (1024 * 1024)
      let total := c.ReadCount + c.WriteCount
      let iops : ℚ := (total : ℚ)
      if iops < cfg.MinIOUsage then acc
      else if cfg.ProcessNameFilter ≠ "" ∧ name ≠ cfg.ProcessNameFilter then acc
      else
        acc ++ [{ PID := e.Pid, Name := name
                  ReadBytes := c.ReadBytes, WriteBytes := c.WriteBytes
                  ReadSpeed := readSpeed, WriteSpeed := writeSpeed
                  TotalIOCnt := total, IOPS := iops
                  Status := status.headD "Unknown", User := user }]) []
  let sorted := goSortSlice
    (fun x y => decide (x.TotalIOCnt > y.TotalIOCnt)) entries
  { d with TopProcesses := limitToMax cfg.MaxProcesses sorted }

/-- calculatePerformanceMetrics (src/diskmonitor/collector.go:378-388):
the average utilization is guarded by a non-empty device list. -/
def calculatePerformanceMetrics (d : DiskMonitorData) : DiskMonitorData :=
  if 0 < d.DiskIOs.length then
    { d with DiskUtilization :=
        (d.DiskIOs.foldl (fun s io => s + io.Utilization) 0) /
          ((d.DiskIOs.length : Nat) : ℚ) }
  else d

/-- The temperature loop of analyzeDiskStatus
(src/diskmonitor/collector.go:405-416). -/
def tempScan (cfg : DiskMonitorConfig) :
    List DiskTemperatureInfo → DiskMonitorData → DiskMonitorData
  | [], d => d
  | t :: rest, d =>
    if cfg.TempCritical ≤ t.Temperature then
      { d with HighTempWarning := true, DiskStatus := "Critical" }
    else if cfg.TempWarning ≤ t.Temperature then
      let d := { d with HighTempWarning := true }
      let d :=
        if d.DiskStatus = "Normal" then { d with DiskStatus := "Warning" }
        else d
      tempScan cfg rest d
    else tempScan cfg rest d

/-- The health loop of analyzeDiskStatus
(src/diskmonitor/collector.go:427-435). -/
def healthScan : List DiskHealthInfo → DiskMonitorData → DiskMonitorData
  | [], d => d
  | h :: rest, d =>
    if h.HealthStatus ≠ "Good" then
      let d := { d with HealthWarning := true }
      if d.DiskStatus = "Normal" then { d with DiskStatus := "Warning" }
      else d
    else healthScan rest d

/-- analyzeDiskStatus (src/diskmonitor/collector.go:390-436). -/
def analyzeDiskStatus (cfg : DiskMonitorConfig)
    (d : DiskMonitorData) : DiskMonitorData :=
  let d :=
    if cfg.LowSpaceCritical ≤ d.UsagePercent then
      { d with DiskStatus := "Critical", LowSpaceWarning := true }
    else if cfg.LowSpaceWarning ≤ d.UsagePercent then
      { d with DiskStatus := "Warning", LowSpaceWarning := true }
    else
      { d with DiskStatus := "Normal", LowSpaceWarning := false }
  let d := tempScan cfg d.DiskTemperatures d
  let d :=
    if cfg.IOBottleneckThreshold ≤ d.DiskUtilization then
      let d := { d with IOBottleneck := true }
      if d.DiskStatus = "Normal" then { d with DiskStatus := "Warning" }
      else d
    else d
  healthScan d.DiskHealth d

/-- DiskUsageHistory (src/diskmonitor/diskmonitor.go); timestamps are
abstract tick times; the IOPS series stores the unguarded average, so
its points are `GoFloat`. -/
structure DiskUsageHistory where
  Timestamps : List Nat := []
  TotalUsage : List ℚ := []
  ReadSpeed : List ℚ := []
  WriteSpeed : List ℚ := []
  IOPS : List GoFloat := []
  Utilization : List ℚ := []
  MaxDataPoints : Nat := 100
  DataPointCount : Nat := 0
  deriving DecidableEq, Repr, Inhabited

/-- updateHistory of the disk collector
(src/diskmonitor/collector.go:438-461): append one point per series,
then drop the oldest point of every series when the timestamp series
exceeds MaxDataPoints. -/
def diskUpdateHistory (d : DiskMonitorData) (now : Nat)
    (h : DiskUsageHistory) : DiskUsageHistory :=
  let h := { h with
    Timestamps := h.Timestamps ++ [now]
    TotalUsage := h.TotalUsage ++ [d.UsagePercent]
    ReadSpeed := h.ReadSpeed ++ [d.TotalReadSpeed]
    WriteSpeed := h.WriteSpeed ++ [d.TotalWriteSpeed]
    IOPS := h.IOPS ++ [d.AverageIOPS]
    Utilization := h.Utilization ++ [d.DiskUtilization] }
  let h :=
    if h.MaxDataPoints < h.Timestamps.length then
      { h with
        Timestamps := h.Timestamps.drop 1
        TotalUsage := h.TotalUsage.drop 1
        ReadSpeed := h.ReadSpeed.drop 1
        WriteSpeed := h.WriteSpeed.drop 1
        IOPS := h.IOPS.drop 1
        Utilization := h.Utilization.drop 1 }
    else h
  { h with DataPointCount := h.Timestamps.length }

/-- The provider results consumed by one disk tick, one field per
gopsutil call site. -/
structure DiskProvider where
  partitionsRes : Except Unit (List (DiskPartitionRaw × Option DiskUsageRaw))
  ioCountersRes : Except Unit (List (String × DiskIOCounterRaw))
  partitionsTempRes : Except Unit (List DiskPartitionRaw)
  partitionsHealthRes : Except Unit (List DiskPartitionRaw)
  processesRes : Except Unit (List DiskProcEntry)
  deriving Repr, Inhabited

/-- The partition step of the disk tick, gated by ShowPartitions. -/
def diskStepPartitions (cfg : DiskMonitorConfig) (prov : DiskProvider)
    (d : DiskMonitorData) : Except Unit DiskMonitorData :=
  if cfg.ShowPartitions then do
    let parts ← prov.partitionsRes
    pure (collectPartitionInfo cfg parts d)
  else pure d

/-- The I/O-counter step of the disk tick, gated by the ShowIO flag. -/
def diskStepCounters (cfg : DiskMonitorConfig) (prov : DiskProvider)
    (d : DiskMonitorData) : Except Unit DiskMonitorData :=
  if cfg.ShowIOStats then do
    let counters ← prov.ioCountersRes
    pure (collectIOInfo counters d)
  else pure d

/-- The temperature step of the disk tick, gated by ShowTemperature. -/
def diskStepTemperature (cfg : DiskMonitorConfig) (prov : DiskProvider)
    (d : DiskMonitorData) : Except Unit DiskMonitorData :=
  if cfg.ShowTemperature then do
    let parts ← prov.partitionsTempRes
    pure (collectTemperatureInfo parts d)
  else pure d

/-- The health step of the disk tick, gated by ShowHealth. -/
def diskStepHealth (cfg : DiskMonitorConfig) (prov : DiskProvider)
    (d : DiskMonitorData) : Except Unit DiskMonitorData :=
  if cfg.ShowHealth then do
    let parts ← prov.partitionsHealthRes
    pure (collectHealthInfo parts d)
  else pure d

/-- The process step of the disk tick, gated by ShowProcesses. -/
def diskStepProcesses (cfg : DiskMonitorConfig) (prov : DiskProvider)
    (d : DiskMonitorData) : Except Unit DiskMonitorData :=
  if cfg.ShowProcesses then do
    let procs ← prov.processesRes
    pure (collectDiskProcessInfo cfg procs d)
  else pure d

/-- The fallible collection phase of the disk tick: the five gated
steps in source order, each aborting the chain on a provider error. -/
def diskCollectSteps (cfg : DiskMonitorConfig) (prov : DiskProvider) :
    Except Unit DiskMonitorData :=
  (pure {} : Except Unit DiskMonitorData) >>= diskStepPartitions cfg prov
    >>= diskStepCounters cfg prov >>= diskStepTemperature cfg prov
    >>= diskStepHealth cfg prov >>= diskStepProcesses cfg prov

/-- CollectDiskMonitorData (src/diskmonitor/collector.go:65-121): the
gated collection steps run in order and any error aborts the tick
before `analyzeDiskStatus` and `updateHistory`; only a fully collected
tick reaches the history update.  The collector state (its history) is
passed and returned explicitly. -/
def CollectDiskMonitorData (cfg : DiskMonitorConfig) (prov : DiskProvider)
    (hist : DiskUsageHistory) (now : Nat) :
    Except Unit DiskMonitorData × DiskUsageHistory :=
  match diskCollectSteps cfg prov with
  | Except.error e => (Except.error e, hist)
  | Except.ok d =>
    let d := if cfg.ShowPerformance then calculatePerformanceMetrics d else d
    let d := analyzeDiskStatus cfg d
    (Except.ok d, diskUpdateHistory d now hist)

/-! ## Memory monitor (src/unnamed/part_001, package memorymonitor) -/

/-- Multiplication of a possibly non-finite value by a positive finite
constant (the `* 100` of the percentage derivations): NaN and the
infinities are preserved. -/
def GoFloat.mulPos : GoFloat → ℚ → GoFloat
  | GoFloat.finite q, c => GoFloat.finite (q * c)
  | GoFloat.nan, _ => GoFloat.nan
  | GoFloat.inf, _ => GoFloat.inf

/-- The fields of MemoryMonitorConfig read by the embedded functions;
defaults as in NewMemoryMonitorCollector. -/
structure MemoryMonitorConfig where
  MaxProcesses : Nat := 20
  MemoryWarning : ℚ := 70
  MemoryCritical : ℚ := 85
  SwapWarning : ℚ := 50
  SwapCritical : ℚ := 80
  ShowModules : Bool := true
  ShowProcesses : Bool := true
  ShowSwap : Bool := true
  ShowCache : Bool := true
  ShowPerformance : Bool := true
  MinMemoryUsage : ℚ := 1
  ProcessNameFilter : String := ""
  MemoryLeakThreshold : ℚ := 10
  deriving DecidableEq, Repr, Inhabited

/-- A gopsutil VirtualMemoryStat (the fields the collector reads). -/
structure VMemRaw where
  Total : Nat := 0
  Available : Nat := 0
  Used : Nat := 0
  Free : Nat := 0
  UsedPercent : ℚ := 0
  Cached : Nat := 0
  Shared : Nat := 0
  Buffers : Nat := 0
  deriving DecidableEq, Repr, Inhabited

/-- A gopsutil SwapMemoryStat (the fields the collector reads). -/
structure SwapRaw where
  Total : Nat := 0
  Used : Nat := 0
  Free : Nat := 0
  UsedPercent : ℚ := 0
  Sin : Nat := 0
  Sout : Nat := 0
  deriving DecidableEq, Repr, Inhabited

/-- MemorySwapInfo (src/unnamed/part_001). -/
structure MemorySwapInfo where
  TotalSwap : Nat := 0
  UsedSwap : Nat := 0
  FreeSwap : Nat := 0
  SwapPercent : ℚ := 0
  SwapIn : Nat := 0
  SwapOut : Nat := 0
  SwapStatus : String := ""
  deriving DecidableEq, Repr, Inhabited

/-- MemoryCacheInfo (src/unnamed/part_001); CachePercent divides by
the total memory without a guard, hence `GoFloat`. -/
structure MemoryCacheInfo where
  BufferCache : Nat := 0
  PageCache : Nat := 0
  SlabCache : Nat := 0
  TotalCache : Nat := 0
  CachePercent : GoFloat := GoFloat.finite 0
  deriving DecidableEq, Repr, Inhabited

/-- MemoryModuleInfo (src/unnamed/part_001); the Go field `Type` is
called `MType`. -/
structure MemoryModuleInfo where
  ModuleID : Nat
  MType : String
  TotalSize : Nat
  UsedSize : Nat
  FreeSize : Nat
  UsagePercent : ℚ
  Speed : Nat
  Manufacturer : String
  Model : String
  SerialNumber : String
  deriving DecidableEq, Repr, Inhabited

/-- MemoryProcessInfo (src/unnamed/part_001). -/
structure MemoryProcessInfo where
  PID : Int
  Name : String
  MemoryUsage : Nat
  MemoryPercent : ℚ
  RSS : Nat
  VMS : Nat
  Status : String
  User : String
  CreateTime : Int
  deriving DecidableEq, Repr, Inhabited

/-- The per-process provider results consumed by the memory
collectProcessInfo. -/
structure MemProcEntry where
  Pid : Int
  MemInfoRes : Option (Nat × Nat)
  NameRes : Option String
  MemPercentRes : Option ℚ
  StatusRes : Option (List String)
  UserRes : Option String
  CreateTimeRes : Option Int
  deriving DecidableEq, Repr, Inhabited

/-- The fields of MemoryMonitorData involved in the embedded tick; the
defaults are the Go zero values of the freshly allocated struct.  The
two unguarded percentage derivations are `GoFloat`. -/
structure MemoryMonitorData where
  TotalMemory : Nat := 0
  AvailableMemory : Nat := 0
  UsedMemory : Nat := 0
  FreeMemory : Nat := 0
  MemoryPercent : ℚ := 0
  UserMemory : Nat := 0
  SystemMemory : Nat := 0
  BufferMemory : Nat := 0
  CacheMemory : Nat := 0
  SharedMemory : Nat := 0
  MemoryPressure : GoFloat := GoFloat.finite 0
  MemoryFragmentation : GoFloat := GoFloat.finite 0
  PageFaults : Nat := 0
  PageIns : Nat := 0
  PageOuts : Nat := 0
  MemoryModules : List MemoryModuleInfo := []
  SwapInfo : MemorySwapInfo := {}
  CacheInfo : MemoryCacheInfo := {}
  TopProcesses : List MemoryProcessInfo := []
  MemoryStatus : String := ""
  LowMemoryWarning : Bool := false
  MemoryLeakAlert : Bool := false
  deriving DecidableEq, Repr, Inhabited

/-- collectBasicMemoryInfo (src/unnamed/part_001:128-142). -/
def collectBasicMemoryInfo (vm : VMemRaw) (d : MemoryMonitorData) :
    MemoryMonitorData :=
  { d with TotalMemory := vm.Total, AvailableMemory := vm.Available
           UsedMemory := vm.Used, FreeMemory := vm.Free
           MemoryPercent := vm.UsedPercent }

/-- collectMemoryBreakdown (src/unnamed/part_001:144-160): the Go code
computes `uint64(float64(used) * c)` for c = 0.6 / 0.3 / 0.1, modelled
as the floor of the exact rational product (the binary rounding of the
literals can differ by one unit at extreme magnitudes, which nothing
here depends on). -/
def collectMemoryBreakdown (vm : VMemRaw) (d : MemoryMonitorData) :
    MemoryMonitorData :=
  { d with UserMemory := (((vm.Used : ℚ) * (6 / 10)).floor).toNat
           SystemMemory := (((vm.Used : ℚ) * (3 / 10)).floor).toNat
           BufferMemory := (((vm.Used : ℚ) * (1 / 10)).floor).toNat
           CacheMemory := vm.Cached
           SharedMemory := vm.Shared }

/-- collectPerformanceMetrics (src/unnamed/part_001:162-184): the
pressure ratio divides by the total without a guard; the fragmentation
ratio is guarded on Available (not on the divisor). -/
def collectMemPerformanceMetrics (vm : VMemRaw) (d : MemoryMonitorData) :
    MemoryMonitorData :=
  let d := { d with
    MemoryPressure := (goDiv (vm.Used : ℚ) (vm.Total : ℚ)).mulPos 100 }
  let d :=
    if 0 < vm.Available then
      { d with MemoryFragmentation :=
          (goDiv (vm.Available : ℚ) (vm.Total : ℚ)).mulPos 100 }
    else d
  { d with PageFaults := vm.Used / 1024 / 1024
           PageIns := vm.Cached / 1024 / 1024
           PageOuts := vm.Shared / 1024 / 1024 }

/-- collectMemoryModules (src/unnamed/part_001:186-211). -/
def collectMemoryModules (vm : VMemRaw) (d : MemoryMonitorData) :
    MemoryMonitorData :=
  { d with MemoryModules :=
      [{ ModuleID := 0, MType := "RAM", TotalSize := vm.Total
         UsedSize := vm.Used, FreeSize := vm.Available
         UsagePercent := vm.UsedPercent, Speed := 3200
         Manufacturer := "System", Model := "Main Memory"
         SerialNumber := "N/A" }] }

/-- getSwapStatus (src/unnamed/part_001:400-408). -/
def getSwapStatus (cfg : MemoryMonitorConfig) (swapPercent : ℚ) : String :=
  if cfg.SwapCritical ≤ swapPercent then "Critical"
  else if cfg.SwapWarning ≤ swapPercent then "Warning"
  else "Normal"

/-- collectSwapInfo (src/unnamed/part_001:213-232). -/
def collectSwapInfo (cfg : MemoryMonitorConfig) (sw : SwapRaw)
    (d : MemoryMonitorData) : MemoryMonitorData :=
  { d with SwapInfo :=
      { TotalSwap := sw.Total, UsedSwap := sw.Used, FreeSwap := sw.Free
        SwapPercent := sw.UsedPercent, SwapIn := sw.Sin, SwapOut := sw.Sout
        SwapStatus := getSwapStatus cfg sw.UsedPercent } }

/-- collectCacheInfo (src/unnamed/part_001:234-252). -/
def collectCacheInfo (vm : VMemRaw) (d : MemoryMonitorData) :
    MemoryMonitorData :=
  { d with CacheInfo :=
      { BufferCache := vm.Buffers, PageCache := vm.Cached
        SlabCache := vm.Shared
        TotalCache := vm.Buffers + vm.Cached + vm.Shared
        CachePercent :=
          (goDiv ((vm.Buffers + vm.Cached + vm.Shared : Nat) : ℚ)
            (vm.Total : ℚ)).mulPos 100 } }

/-- The per-process body of the memory collectProcessInfo
(src/unnamed/part_001:254-339): processes whose MemoryInfo call failed
are skipped, other failing sub-calls fall back to defaults, the
filters drop small or name-filtered entries; the survivors are sorted
by MemoryPercent with sort.Slice and truncated. -/
def collectMemProcessInfo (cfg : MemoryMonitorConfig)
    (procs : List MemProcEntry) (d : MemoryMonitorData) :
    MemoryMonitorData :=
  let entries := procs.foldl (fun acc e =>
    match e.MemInfoRes with
    | none => acc
    | some memInfo =>
      let name := e.NameRes.getD "Unknown"
      let memPercent := e.MemPercentRes.getD 0
      let status := e.StatusRes.getD ["Unknown"]
      let user := e.UserRes.getD "Unknown"
      let createTime := e.CreateTimeRes.getD 0
      if memPercent < cfg.MinMemoryUsage then acc
      else if cfg.ProcessNameFilter ≠ "" ∧ name ≠ cfg.ProcessNameFilter then acc
      else
        acc ++ [{ PID := e.Pid, Name := name, MemoryUsage := memInfo.1
                  MemoryPercent := memPercent, RSS := memInfo.1
                  VMS := memInfo.2, Status := status.headD "Unknown"
                  User := user, CreateTime := createTime }]) []
  let sorted := goSortSlice
    (fun x y => decide (x.MemoryPercent > y.MemoryPercent)) entries
  { d with TopProcesses := limitToMax cfg.MaxProcesses sorted }

/-- MemoryUsageHistory (src/unnamed/part_001): the TotalUsage and
SwapUsage series store provider percentages (finite), the three
derived series store the unguarded ratio computations (`GoFloat`). -/
structure MemoryUsageHistory where
  Timestamps : List Nat := []
  TotalUsage : List ℚ := []
  UserUsage : List GoFloat := []
  SystemUsage : List GoFloat := []
  CacheUsage : List GoFloat := []
  SwapUsage : List ℚ := []
  MaxDataPoints : Nat := 100
  DataPointCount : Nat := 0
  deriving DecidableEq, Repr, Inhabited

/-- The strictly-increasing loop of the memory-leak check
(src/unnamed/part_001:364-370): false as soon as one entry does not
strictly exceed its predecessor. -/
def isStrictIncrGo : List ℚ → Bool
  | [] => true
  | [_] => true
  | a :: b :: rest => if b ≤ a then false else isStrictIncrGo (b :: rest)

/-- analyzeMemoryStatus (src/unnamed/part_001:341-373): threshold
classification of the memory percentage, swap-critical escalation, and
the memory-leak heuristic over the stored history (read before this
tick's point is appended); the alert field is only assigned when the
history holds strictly more than 10 points. -/
def analyzeMemoryStatus (cfg : MemoryMonitorConfig)
    (hist : MemoryUsageHistory) (d : MemoryMonitorData) :
    MemoryMonitorData :=
  let d :=
    if cfg.MemoryCritical ≤ d.MemoryPercent then
      { d with MemoryStatus := "Critical", LowMemoryWarning := true }
    else if cfg.MemoryWarning ≤ d.MemoryPercent then
      { d with MemoryStatus := "Warning", LowMemoryWarning := true }
    else
      { d with MemoryStatus := "Normal", LowMemoryWarning := false }
  let d :=
    if cfg.SwapCritical ≤ d.SwapInfo.SwapPercent then
      { d with MemoryStatus := "Critical" }
    else d
  if 10 < hist.DataPointCount then
    let recentUsage := hist.TotalUsage.drop (hist.TotalUsage.length - 10)
    { d with MemoryLeakAlert := isStrictIncrGo recentUsage }
  else d

/-- updateHistory of the memory collector (src/unnamed/part_001:
375-398): append one point per series, then drop the oldest point of
every series when the timestamp series exceeds MaxDataPoints. -/
def memUpdateHistory (d : MemoryMonitorData) (now : Nat)
    (h : MemoryUsageHistory) : MemoryUsageHistory :=
  let h := { h with
    Timestamps := h.Timestamps ++ [now]
    TotalUsage := h.TotalUsage ++ [d.MemoryPercent]
    UserUsage := h.UserUsage ++
      [(goDiv (d.UserMemory : ℚ) (d.TotalMemory : ℚ)).mulPos 100]
    SystemUsage := h.SystemUsage ++
      [(goDiv (d.SystemMemory : ℚ) (d.TotalMemory : ℚ)).mulPos 100]
    CacheUsage := h.CacheUsage ++
      [(goDiv (d.CacheMemory : ℚ) (d.TotalMemory : ℚ)).mulPos 100]
    SwapUsage := h.SwapUsage ++ [d.SwapInfo.SwapPercent] }
  let h :=
    if h.MaxDataPoints < h.Timestamps.length then
      { h with
        Timestamps := h.Timestamps.drop 1
        TotalUsage := h.TotalUsage.drop 1
        UserUsage := h.UserUsage.drop 1
        SystemUsage := h.SystemUsage.drop 1
        CacheUsage := h.CacheUsage.drop 1
        SwapUsage := h.SwapUsage.drop 1 }
    else h
  { h with DataPointCount := h.Timestamps.length }

/-- The provider results consumed by one memory tick, one field per
gopsutil call site (the collector calls mem.VirtualMemory separately
in five steps). -/
structure MemoryProvider where
  vmemBasicRes : Except Unit VMemRaw
  vmemBreakdownRes : Except Unit VMemRaw
  vmemPerfRes : Except Unit VMemRaw
  vmemModulesRes : Except Unit VMemRaw
  swapRes : Except Unit SwapRaw
  vmemCacheRes : Except Unit VMemRaw
  processesRes : Except Unit (List MemProcEntry)
  deriving Repr, Inhabited

/-- The unconditional basic-info step of the memory tick. -/
def memStepBasic (prov : MemoryProvider) (d : MemoryMonitorData) :
    Except Unit MemoryMonitorData := do
  let vm ← prov.vmemBasicRes
  pure (collectBasicMemoryInfo vm d)

/-- The unconditional breakdown step of the memory tick. -/
def memStepBreakdown (prov : MemoryProvider) (d : MemoryMonitorData) :
    Except Unit MemoryMonitorData := do
  let vm ← prov.vmemBreakdownRes
  pure (collectMemoryBreakdown vm d)

/-- The performance step of the memory tick, gated by ShowPerformance. -/
def memStepPerformance (cfg : MemoryMonitorConfig) (prov : MemoryProvider)
    (d : MemoryMonitorData) : Except Unit MemoryMonitorData :=
  if cfg.ShowPerformance then do
    let vm ← prov.vmemPerfRes
    pure (collectMemPerformanceMetrics vm d)
  else pure d

/-- The modules step of the memory tick, gated by ShowModules. -/
def memStepModules (cfg : MemoryMonitorConfig) (prov : MemoryProvider)
    (d : MemoryMonitorData) : Except Unit MemoryMonitorData :=
  if cfg.ShowModules then do
    let vm ← prov.vmemModulesRes
    pure (collectMemoryModules vm d)
  else pure d

/-- The swap step of the memory tick, gated by ShowSwap. -/
def memStepSwap (cfg : MemoryMonitorConfig) (prov : MemoryProvider)
    (d : MemoryMonitorData) : Except Unit MemoryMonitorData :=
  if cfg.ShowSwap then do
    let sw ← prov.swapRes
    pure (collectSwapInfo cfg sw d)
  else pure d

/-- The cache step of the memory tick, gated by ShowCache. -/
def memStepCache (cfg : MemoryMonitorConfig) (prov : MemoryProvider)
    (d : MemoryMonitorData) : Except Unit MemoryMonitorData :=
  if cfg.ShowCache then do
    let vm ← prov.vmemCacheRes
    pure (collectCacheInfo vm d)
  else pure d

/-- The process step of the memory tick, gated by ShowProcesses. -/
def memStepProcesses (cfg : MemoryMonitorConfig) (prov : MemoryProvider)
    (d : MemoryMonitorData) : Except Unit MemoryMonitorData :=
  if cfg.ShowProcesses then do
    let procs ← prov.processesRes
    pure (collectMemProcessInfo cfg procs d)
  else pure d

/-- The fallible collection phase of the memory tick: two
unconditional and five gated steps in source order, each aborting the
chain on a provider error. -/
def memCollectSteps (cfg : MemoryMonitorConfig) (prov : MemoryProvider) :
    Except Unit MemoryMonitorData :=
  (pure {} : Except Unit MemoryMonitorData) >>= memStepBasic prov
    >>= memStepBreakdown prov >>= memStepPerformance cfg prov
    >>= memStepModules cfg prov >>= memStepSwap cfg prov
    >>= memStepCache cfg prov >>= memStepProcesses cfg prov

/-- CollectMemoryMonitorData (src/unnamed/part_001:64-125): the two
unconditional and five gated collection steps run in order, any error
aborts the tick before `analyzeMemoryStatus` and `updateHistory`; only
a fully collected tick reaches the history update. -/
def CollectMemoryMonitorData (cfg : MemoryMonitorConfig)
    (prov : MemoryProvider) (hist : MemoryUsageHistory) (now : Nat) :
    Except Unit MemoryMonitorData × MemoryUsageHistory :=
  match memCollectSteps cfg prov with
  | Except.error e => (Except.error e, hist)
  | Except.ok d =>
    let d := analyzeMemoryStatus cfg hist d
    (Except.ok d, memUpdateHistory d now hist)

/-! ## CPU monitor history (src/cpumonitor/collector.go:310-345) -/

/-- The fields of CPUMonitorData read by the CPU updateHistory; Cores
is the list of per-core usage percentages. -/
structure CPUTickData where
  OverallUsage : ℚ := 0
  UserUsage : ℚ := 0
  SystemUsage : ℚ := 0
  IdleUsage : ℚ := 0
  Temperature : ℚ := 0
  Cores : List ℚ := []
  deriving DecidableEq, Repr, Inhabited

/-- CPUUsageHistory (src/cpumonitor/types.go). -/
structure CPUUsageHistory where
  Timestamps : List Nat := []
  OverallUsage : List ℚ := []
  UserUsage : List ℚ := []
  SystemUsage : List ℚ := []
  IdleUsage : List ℚ := []
  CoreUsage : List (List ℚ) := []
  Temperature : List ℚ := []
  MaxDataPoints : Nat := 100
  DataPointCount : Nat := 0
  deriving DecidableEq, Repr, Inhabited

/-- updateHistory of the CPU collector
(src/cpumonitor/collector.go:310-345): the per-core series is appended
only when the tick carried core data, but it is trimmed (when
non-empty) whenever the timestamp series exceeds MaxDataPoints. -/
def cpuUpdateHistory (d : CPUTickData) (now : Nat)
    (h : CPUUsageHistory) : CPUUsageHistory :=
  let h := { h with
    Timestamps := h.Timestamps ++ [now]
    OverallUsage := h.OverallUsage ++ [d.OverallUsage]
    UserUsage := h.UserUsage ++ [d.UserUsage]
    SystemUsage := h.SystemUsage ++ [d.SystemUsage]
    IdleUsage := h.IdleUsage ++ [d.IdleUsage]
    Temperature := h.Temperature ++ [d.Temperature] }
  let h :=
    if 0 < d.Cores.length then { h with CoreUsage := h.CoreUsage ++ [d.Cores] }
    else h
  let h :=
    if h.MaxDataPoints < h.Timestamps.length then
      let h := { h with
        Timestamps := h.Timestamps.drop 1
        OverallUsage := h.OverallUsage.drop 1
        UserUsage := h.UserUsage.drop 1
        SystemUsage := h.SystemUsage.drop 1
        IdleUsage := h.IdleUsage.drop 1
        Temperature := h.Temperature.drop 1 }
      if 0 < h.CoreUsage.length then
        { h with CoreUsage := h.CoreUsage.drop 1 }
      else h
    else h
  { h with DataPointCount := h.Timestamps.length }

/-! ## Shared example inputs and helper lemmas -/

/-- A process record with the given PID and parent and neutral metric
fields. -/
def sampleProcess (pid parent : Int) : ProcessInfo :=
  { PID := pid, Name := "", ParentPID := parent, CPUUsage := 0
    MemoryUsage := 0, IOReadBytes := 0, IOWriteBytes := 0, Threads := 0 }

/-- The spec scenario input for the tree builder: ids 1, 2, 3 with
parent pointers 0, 1, 99 (99 matches no id). -/
def treeScenarioInput : List ProcessInfo :=
  [sampleProcess 1 0, sampleProcess 2 1, sampleProcess 3 99]

/-- A two-entity parent cycle: 1 points to 2 and 2 points to 1. -/
def cycleInput : List ProcessInfo :=
  [sampleProcess 1 2, sampleProcess 2 1]

/-- A network tick as allocated by CollectNetworkMonitorData, carrying
one latency reading inside the warning band of the default thresholds
(warning 100, critical 200) and a non-empty connection list. -/
def netWarnTick : NetworkMonitorData :=
  { LatencyInfo := [{ Latency := 150, PacketLoss := 0 }], Connections := 1 }

/-- The loopback interface as the platform reports it. -/
def loopbackIface : GoNetInterfaceStat :=
  { Name := "lo", MTU := 65536, HardwareAddr := ""
    Flags := ["up", "loopback"], Addrs := [{ Addr := "127.0.0.1/8" }] }

/-- Accumulator form: the Option mapM loop over a pointwise-successful
function succeeds with the pointwise results. -/
theorem mapM_option_loop {α β : Type} (f : α → Option β) (g : α → β) :
    ∀ (l : List α) (acc : List β), (∀ x ∈ l, f x = some (g x)) →
      List.mapM.loop f l acc = some (acc.reverse ++ l.map g) := by
  intro l
  induction l with
  | nil => intro acc _; simp [List.mapM.loop]
  | cons x xs ih =>
    intro acc h
    have hx := h x (by simp)
    have hxs := ih (g x :: acc) (fun y hy => h y (by simp [hy]))
    simp [List.mapM.loop, hx, hxs]

/-- Option.mapM over a function that succeeds pointwise succeeds with
the pointwise results. -/
theorem mapM_option_of_forall_some {α β : Type} (f : α → Option β)
    (g : α → β) (l : List α) (h : ∀ x ∈ l, f x = some (g x)) :
    l.mapM f = some (l.map g) := by
  have := mapM_option_loop f g l [] h
  simpa [List.mapM] using this

/-! ## C1 — overall status versus fired alert flags -/

/-- C1: the per-monitor status classifier does not always equal the
maximum severity of the fired flags.  In `analyzeNetworkStatus` the
escalation guard compares against "Normal", but the status field of a
fresh tick holds the Go zero value "" until the final default at the
end of the function, so a latency reading inside the warning band
(here 150 with thresholds 100/200) sets `HighLatencyWarning` yet the
overall status is reported "Normal", not "Warning".  (The disk variant
`analyzeDiskStatus` initialises its status before escalating and
does not show this defect.) -/
theorem networkWarning_leaves_overall_normal :
    (analyzeNetworkStatus {} netWarnTick).NetworkStatus = "Normal" ∧
    (analyzeNetworkStatus {} netWarnTick).HighLatencyWarning = true := by
  decide

/-! ## C2 — dangling parents in the tree builder -/

/-- C2, counterexample: on the spec scenario input the built forest
contains the ids 1 and 2 only; the entity with the dangling parent
pointer 99 is not promoted to a root — it is dropped and appears
nowhere in the forest. -/
theorem buildProcessTree_drops_dangling_entity :
    forestPids (buildProcessTree treeScenarioInput 0 5) = [1, 2] ∧
    (3 : Int) ∉ forestPids (buildProcessTree treeScenarioInput 0 5) := by
  decide

/-- C2, amended: only entities whose parent pointer equals the queried
root sentinel 0 become roots, descendants attach below them, and an
entity whose parent id matches no id in the set is dropped; the
scenario input therefore builds exactly the forest with root 1
(level 5) carrying child 2 (level 4), and entity 3 is absent. -/
theorem buildProcessTree_example_forest :
    buildProcessTree treeScenarioInput 0 5 =
      [{ PID := 1, Name := ""
         Children := [{ PID := 2, Name := "", Children := []
                        Level := 4, IsLeaf := true }]
         Level := 5, IsLeaf := false }] := rfl

/-! ## C7 — interface classification panics on short names -/

/-- C7: the interface-collection step is not total in the interface
name.  For any interface that passes the (empty) filter and has an
address, if its name is shorter than four bytes and does not start
with "wl", the evaluation of `getInterfaceType` inside
`collectInterfaceInfo` slices `name[:4]` (or already `name[:2]`) out
of range and panics, so the whole collection step panics instead of
returning a classification or an error. -/
theorem collectInterfaceInfo_short_name_panic
    (cfg : NetworkMonitorConfig) (iface : GoNetInterfaceStat)
    (rest : List GoNetInterfaceStat)
    (hfilter : cfg.InterfaceFilter = "")
    (haddr : iface.Addrs ≠ [])
    (hlen : iface.Name.length < 4)
    (hwl : iface.Name.take 2 ≠ "wl") :
    collectInterfaceInfo cfg (iface :: rest) = none := by
  have hty : getInterfaceType iface.Name = none := by
    unfold getInterfaceType goStringPrefixSlice
    by_cases h2 : 2 ≤ iface.Name.length
    · simp only [h2, if_pos, Option.bind_eq_bind, Option.some_bind]
      have h4 : ¬ 4 ≤ iface.Name.length := by omega
      simp [hwl, h4]
    · simp [h2]
  unfold collectInterfaceInfo
  have : ¬ (cfg.InterfaceFilter ≠ "" ∧ iface.Name ≠ cfg.InterfaceFilter) := by
    simp [hfilter]
  simp only [this, if_neg, if_false]
  have haddrlen : ¬ iface.Addrs.length = 0 := by
    simpa [List.length_eq_zero] using haddr
  simp [haddrlen, hty]

/-- C7, witness: the standard loopback name "lo" (length 2, not
starting with "wl") makes the collection step panic. -/
theorem collectInterfaceInfo_short_name_panic_witness :
    collectInterfaceInfo {} [loopbackIface] = none :=
  collectInterfaceInfo_short_name_panic {} loopbackIface []
    (by decide) (by decide) (by decide) (by decide)

/-! ## C8 — termination of the tree builder -/

/-- C8: buildProcessTree terminates on every input, parent cycles
included: each recursive call strictly decreases maxDepth and the
recursion stops at maxDepth 0.  The fuel-indexed translation
`buildProcessTreeF`, which spends one unit of fuel per recursion
level and fails when the fuel runs out, never fails when given
`maxDepth.toNat` fuel (or more): it computes the same forest as the
total function, for every process list and parent-pointer structure. -/
theorem buildProcessTree_terminates_within_depth_fuel
    (fuel : Nat) (ps : List ProcessInfo) (parentPID maxDepth : Int)
    (h : maxDepth.toNat ≤ fuel) :
    buildProcessTreeF fuel ps parentPID maxDepth =
      some (buildProcessTree ps parentPID maxDepth) := by
  induction fuel generalizing parentPID maxDepth with
  | zero =>
    have h0 : maxDepth ≤ 0 := by omega
    simp [buildProcessTreeF, buildProcessTree, buildProcessTreeNat, h0,
      Int.toNat_of_nonpos h0]
  | succ f ih =>
    by_cases h0 : maxDepth ≤ 0
    · simp [buildProcessTreeF, buildProcessTree, buildProcessTreeNat, h0,
        Int.toNat_of_nonpos h0]
    · push_neg at h0
      have hk : maxDepth.toNat = (maxDepth - 1).toNat + 1 := by omega
      unfold buildProcessTreeF buildProcessTree
      rw [hk]
      simp only [if_neg (by omega : ¬ maxDepth ≤ 0)]
      simp only [buildProcessTreeNat]
      have hlev : ((((maxDepth - 1).toNat : Int)) + 1) = maxDepth := by omega
      simp only [hlev]
      exact mapM_option_of_forall_some _ _ _ (fun p _ => by
        rw [ih p.PID (maxDepth - 1) (by omega)]
        simp [buildProcessTree])

/-- C8, witness: the forced two-entity parent cycle 1 → 2 → 1 is built
without running out of recursion fuel at depth 5. -/
theorem buildProcessTree_terminates_cycle_witness :
    buildProcessTreeF 5 cycleInput 0 5 =
      some (buildProcessTree cycleInput 0 5) :=
  buildProcessTree_terminates_within_depth_fuel 5 cycleInput 0 5 (by decide)

/-! ## C9 — the memory-leak alert trigger condition -/

/-- The Go strictly-increasing loop decides the adjacent-pairs chain
`<`. -/
theorem isStrictIncrGo_iff_chain (l : List ℚ) :
    isStrictIncrGo l = true ↔ l.Chain' (· < ·) := by
  induction l with
  | nil => simp [isStrictIncrGo]
  | cons a t ih =>
    cases t with
    | nil => simp [isStrictIncrGo]
    | cons b t2 =>
      by_cases hba : b ≤ a
      · simp [isStrictIncrGo, hba, List.chain'_cons]
      · push_neg at hba
        simp [isStrictIncrGo, not_le.mpr hba, List.chain'_cons, hba, ih]

/-- C9: after a tick, MemoryLeakAlert is true exactly when the history
read before this tick's append holds strictly more than 10 points and
its last 10 total-usage values are strictly increasing.  The tick's
data enters `analyzeMemoryStatus` with the Go zero value false in the
alert field, and the collector maintains DataPointCount equal to the
series length; both facts are the hypotheses. -/
theorem analyzeMemoryStatus_leak_alert_iff
    (cfg : MemoryMonitorConfig) (hist : MemoryUsageHistory)
    (d : MemoryMonitorData)
    (hfresh : d.MemoryLeakAlert = false)
    (hcount : hist.DataPointCount = hist.TotalUsage.length) :
    ((analyzeMemoryStatus cfg hist d).MemoryLeakAlert = true ↔
      (10 < hist.DataPointCount ∧
        (hist.TotalUsage.drop (hist.TotalUsage.length - 10)).Chain' (· < ·))) := by
  have hincr :=
    isStrictIncrGo_iff_chain (hist.TotalUsage.drop (hist.TotalUsage.length - 10))
  unfold analyzeMemoryStatus
  by_cases hc : 10 < hist.DataPointCount
  · simp [hc, hincr]
  · simp [hc, apply_ite MemoryMonitorData.MemoryLeakAlert, hfresh]

/-- An eleven-point history whose total-usage series rises strictly. -/
def risingHist : MemoryUsageHistory :=
  { Timestamps := List.range 11
    TotalUsage := [20, 21, 22, 23, 24, 25, 26, 27, 28, 29, 30]
    DataPointCount := 11 }

/-- C9, witness: on an eleven-point strictly rising history a fresh
tick raises the leak alert. -/
theorem analyzeMemoryStatus_leak_alert_witness :
    (analyzeMemoryStatus {} risingHist {}).MemoryLeakAlert = true :=
  (analyzeMemoryStatus_leak_alert_iff {} risingHist {} (by decide)
    (by decide)).mpr ⟨by decide, by
      have hdrop : (risingHist.TotalUsage.drop (risingHist.TotalUsage.length - 10))
          = [21, 22, 23, 24, 25, 26, 27, 28, 29, 30] := by decide
      rw [hdrop]
      norm_num [List.chain'_cons, List.chain'_singleton]⟩

/-! ## C4 — tie handling of the top-N selection -/

/-- Thirteen processes with tied CPU keys: pids 0..6 at 5 percent and
pids 7..12 at 9 percent, listed in pid order. -/
def tiedCpuInput : List ProcessInfo :=
  (List.range 13).map fun i =>
    { PID := i, Name := "", ParentPID := 0
      CPUUsage := if i < 7 then 5 else 9
      MemoryUsage := 0, IOReadBytes := 0, IOWriteBytes := 0, Threads := 0 }

/-- C4, counterexample: on the thirteen tied processes (more than the
twelve-element insertion-sort cutoff of Go's pdqsort) the top-N
selection reorders tied entities: the partition pass returns the 9-key
group as 7, 12, 11, 10, 9, 8 and the 5-key group as 3, 6, 5, 4, 0, 2,
1, so the relative input order among tied entities is not preserved. -/
theorem collectTopProcesses_reorders_ties :
    ((collectTopProcesses 50 { ProcessInfos := tiedCpuInput }).TopCPUProcesses.map
        (fun p => p.PID)) = [7, 12, 11, 10, 9, 8, 3, 6, 5, 4, 0, 2, 1] ∧
    ¬ ((collectTopProcesses 50 { ProcessInfos := tiedCpuInput }).TopCPUProcesses.Pairwise
        (fun x y => x.CPUUsage = y.CPUUsage → x.PID ≤ y.PID)) := by
  decide

/-- The spec's five-entity scenario: CPU keys 90, 10, 90, 50, 30 in
pid order 0..4. -/
def scenarioCpuInput : List ProcessInfo :=
  [{ PID := 0, Name := "", ParentPID := 0, CPUUsage := 90, MemoryUsage := 0
     IOReadBytes := 0, IOWriteBytes := 0, Threads := 0 },
   { PID := 1, Name := "", ParentPID := 0, CPUUsage := 10, MemoryUsage := 0
     IOReadBytes := 0, IOWriteBytes := 0, Threads := 0 },
   { PID := 2, Name := "", ParentPID := 0, CPUUsage := 90, MemoryUsage := 0
     IOReadBytes := 0, IOWriteBytes := 0, Threads := 0 },
   { PID := 3, Name := "", ParentPID := 0, CPUUsage := 50, MemoryUsage := 0
     IOReadBytes := 0, IOWriteBytes := 0, Threads := 0 },
   { PID := 4, Name := "", ParentPID := 0, CPUUsage := 30, MemoryUsage := 0
     IOReadBytes := 0, IOWriteBytes := 0, Threads := 0 }]

/-- C4, amended: the selection never mutates the input (the Go code
sorts a copy, and here the input field is returned unchanged), it is a
function of its input (deterministic, so repeated calls agree), and on
the five-entity scenario — short enough for the insertion-sort path of
sort.Slice, which is stable — the result is the two 90-key entities in
input order followed by the 50-key entity; for inputs above twelve
entities tied keys may be reordered. -/
theorem collectTopProcesses_scenario_and_no_mutation :
    ((collectTopProcesses 3 { ProcessInfos := scenarioCpuInput }).TopCPUProcesses.map
        (fun p => p.PID)) = [0, 2, 3] ∧
    (collectTopProcesses 3 { ProcessInfos := scenarioCpuInput }).ProcessInfos
      = scenarioCpuInput := by
  decide

/-! ## C10 — ranking correctness of the top-N selection -/

/-- Ranking contract of the truncation step: if the sorted copy is a
permutation of the input sorted descending by the key — the documented
contract of sort.Slice — then the truncation returns a descending list
of length min(n, len(input)), the whole sorted list when n is large
enough, and the empty list on empty input. -/
theorem limitToMax_ranking_contract {α : Type} (key : α → ℚ)
    (ps out : List α) (maxP : Nat)
    (hperm : out.Perm ps)
    (hsorted : out.Pairwise (fun x y => key y ≤ key x)) :
    (limitToMax maxP out).Pairwise (fun x y => key y ≤ key x) ∧
    (limitToMax maxP out).length = min maxP ps.length ∧
    (ps.length ≤ maxP → limitToMax maxP out = out) ∧
    (ps = [] → limitToMax maxP out = []) := by
  have hlen := hperm.length_eq
  refine ⟨?_, ?_, ?_, ?_⟩
  · unfold limitToMax
    split
    · exact List.Pairwise.sublist (List.take_sublist _ _) hsorted
    · exact hsorted
  · unfold limitToMax
    split
    · simp only [List.length_take]
      omega
    · omega
  · intro h
    unfold limitToMax
    rw [if_neg (by omega)]
  · intro h
    subst h
    have : out = [] := List.Perm.eq_nil hperm
    subst this
    simp [limitToMax]

/-- C10: for every input process list, if the copy sorted by
sort.Slice satisfies that function's documented contract at this input
(a permutation of the input, descending in the CPU key), then the
CPU ranking of collectTopProcesses is sorted descending, has length
min(MaxProcesses, number of inputs), is the whole sorted list when
MaxProcesses covers the input, and is empty (not an error) on an empty
input. -/
theorem collectTopProcesses_ranking_contract
    (d : ProcessMonitorData) (maxP : Nat)
    (hperm : (goSortSlice cpuDescLt d.ProcessInfos).Perm d.ProcessInfos)
    (hsorted : (goSortSlice cpuDescLt d.ProcessInfos).Pairwise
      (fun x y => y.CPUUsage ≤ x.CPUUsage)) :
    ((collectTopProcesses maxP d).TopCPUProcesses.Pairwise
      (fun x y => y.CPUUsage ≤ x.CPUUsage)) ∧
    (collectTopProcesses maxP d).TopCPUProcesses.length
      = min maxP d.ProcessInfos.length ∧
    (d.ProcessInfos.length ≤ maxP →
      (collectTopProcesses maxP d).TopCPUProcesses
        = goSortSlice cpuDescLt d.ProcessInfos) ∧
    (d.ProcessInfos = [] → (collectTopProcesses maxP d).TopCPUProcesses = []) := by
  have hrw : (collectTopProcesses maxP d).TopCPUProcesses
      = limitToMax maxP (goSortSlice cpuDescLt d.ProcessInfos) := rfl
  rw [hrw]
  exact limitToMax_ranking_contract (fun p => p.CPUUsage)
    d.ProcessInfos (goSortSlice cpuDescLt d.ProcessInfos) maxP hperm hsorted

/-- Two processes with distinct CPU keys, listed out of order. -/
def twoProcessData : ProcessMonitorData :=
  { ProcessInfos :=
      [{ PID := 10, Name := "", ParentPID := 0, CPUUsage := 1, MemoryUsage := 0
         IOReadBytes := 0, IOWriteBytes := 0, Threads := 0 },
       { PID := 11, Name := "", ParentPID := 0, CPUUsage := 2, MemoryUsage := 0
         IOReadBytes := 0, IOWriteBytes := 0, Threads := 0 }] }

/-! ## C3 — bounded rolling history -/

/-- The most recent M entries of a list (all of it when it is
shorter). -/
def boundedSeq {α : Type} (M : Nat) (xs : List α) : List α :=
  xs.drop (xs.length - M)

theorem boundedSeq_length {α : Type} (M : Nat) (xs : List α) :
    (boundedSeq M xs).length = min xs.length M := by
  simp only [boundedSeq, List.length_drop]
  omega

theorem boundedSeq_of_le {α : Type} {M : Nat} {xs : List α}
    (h : xs.length ≤ M) : boundedSeq M xs = xs := by
  simp [boundedSeq, Nat.sub_eq_zero_of_le h]

theorem boundedSeq_append_of_lt {α : Type} {M : Nat} {xs : List α}
    (x : α) (h : xs.length < M) :
    boundedSeq M (xs ++ [x]) = boundedSeq M xs ++ [x] := by
  rw [boundedSeq_of_le (show (xs ++ [x]).length ≤ M by simp; omega),
    boundedSeq_of_le (le_of_lt h)]

theorem boundedSeq_append_of_ge {α : Type} {M : Nat} {xs : List α}
    (x : α) (hM : 0 < M) (h : M ≤ xs.length) :
    boundedSeq M (xs ++ [x]) = (boundedSeq M xs ++ [x]).drop 1 := by
  unfold boundedSeq
  rw [List.drop_append_of_le_length (by simp; omega),
    List.drop_append_of_le_length (by simp [List.length_drop]; omega),
    List.drop_drop]
  congr 2
  simp
  omega

/-- A CPU tick carrying one core reading. -/
def coreTick : CPUTickData := { Cores := [1] }

/-- One tick with core data followed by one hundred ticks without. -/
def coreEvictionTicks : List CPUTickData :=
  coreTick :: List.replicate 100 {}

/-- C3, counterexample: running the CPU history update over
`coreEvictionTicks` (timestamps 0..100) appends exactly one per-core
point over the whole run, yet after the 101st tick the timestamp
series overflows MaxDataPoints = 100 and the trim also drops the head
of the CoreUsage series, leaving it empty: the retained entries of the
CoreUsage series are not the most recent min(1, 100) = 1 appended
points. -/
theorem cpuCoreUsage_evicted_without_append :
    ((coreEvictionTicks.enum).foldl
        (fun h ti => cpuUpdateHistory ti.2 ti.1 h) ({} : CPUUsageHistory)).CoreUsage
      = [] ∧
    coreEvictionTicks.filterMap
        (fun t => if 0 < t.Cores.length then some t.Cores else none) = [[1]] ∧
    ((coreEvictionTicks.enum).foldl
        (fun h ti => cpuUpdateHistory ti.2 ti.1 h) ({} : CPUUsageHistory)).MaxDataPoints
      = 100 := by
  decide

/-- C3, amended: for the memory monitor — whose updateHistory appends
to every series on every tick — the claim holds as stated: after any
sequence of ticks starting from the collector's fresh history, every
series holds exactly the most recent min(k, 100) appended points in
original order (hence at most MaxDataPoints = 100 of them), and
DataPointCount equals that size.  (The CPU monitor satisfies the same
for its unconditionally appended series, but its CoreUsage series is
appended only on ticks with core data while being trimmed on any
overflow, which the counterexample exhibits.) -/
theorem memUpdateHistory_fold_spec (ticks : List (MemoryMonitorData × Nat)) :
    ticks.foldl (fun h t => memUpdateHistory t.1 t.2 h) ({} : MemoryUsageHistory) =
      { Timestamps := boundedSeq 100 (ticks.map fun t => t.2)
        TotalUsage := boundedSeq 100 (ticks.map fun t => t.1.MemoryPercent)
        UserUsage := boundedSeq 100 (ticks.map fun t =>
          (goDiv (t.1.UserMemory : ℚ) (t.1.TotalMemory : ℚ)).mulPos 100)
        SystemUsage := boundedSeq 100 (ticks.map fun t =>
          (goDiv (t.1.SystemMemory : ℚ) (t.1.TotalMemory : ℚ)).mulPos 100)
        CacheUsage := boundedSeq 100 (ticks.map fun t =>
          (goDiv (t.1.CacheMemory : ℚ) (t.1.TotalMemory : ℚ)).mulPos 100)
        SwapUsage := boundedSeq 100 (ticks.map fun t => t.1.SwapInfo.SwapPercent)
        MaxDataPoints := 100
        DataPointCount := min ticks.length 100 } := by
  induction ticks using List.reverseRecOn with
  | nil => rfl
  | append_singleton ts t ih =>
    rw [List.foldl_append, List.foldl_cons, List.foldl_nil, ih]
    unfold memUpdateHistory
    simp only [List.map_append, List.map_cons, List.map_nil]
    have hts : (boundedSeq 100 (ts.map fun t => t.2)).length = min ts.length 100 := by
      rw [boundedSeq_length, List.length_map]
    by_cases hlen : ts.length < 100
    · have hcond : ¬ (100 < (boundedSeq 100 (ts.map fun t => t.2) ++ [t.2]).length) := by
        simp [hts]
        omega
      simp only [if_neg hcond]
      rw [boundedSeq_append_of_lt _ (by simp; omega),
        boundedSeq_append_of_lt _ (by simp; omega),
        boundedSeq_append_of_lt _ (by simp; omega),
        boundedSeq_append_of_lt _ (by simp; omega),
        boundedSeq_append_of_lt _ (by simp; omega),
        boundedSeq_append_of_lt _ (by simp; omega)]
      simp [hts]
      omega
    · push_neg at hlen
      have hcond : 100 < (boundedSeq 100 (ts.map fun t => t.2) ++ [t.2]).length := by
        simp [hts]
        omega
      simp only [if_pos hcond]
      rw [boundedSeq_append_of_ge _ (by omega) (by simp; omega),
        boundedSeq_append_of_ge _ (by omega) (by simp; omega),
        boundedSeq_append_of_ge _ (by omega) (by simp; omega),
        boundedSeq_append_of_ge _ (by omega) (by simp; omega),
        boundedSeq_append_of_ge _ (by omega) (by simp; omega),
        boundedSeq_append_of_ge _ (by omega) (by simp; omega)]
      simp [hts]
      omega

/-- Companion to the memory fold: over any CPU tick sequence the
timestamp series and the five series appended on every tick satisfy
the same rolling-window characterisation and DataPointCount tracks the
window size; the conditionally appended per-core series never holds
more entries than the window (its exact contents depend on which ticks
carried core data, as the eviction counterexample shows). -/
theorem cpuUpdateHistory_fold_series (ticks : List (CPUTickData × Nat)) :
    ∃ cu : List (List ℚ),
      ticks.foldl (fun h t => cpuUpdateHistory t.1 t.2 h) ({} : CPUUsageHistory) =
        { Timestamps := boundedSeq 100 (ticks.map fun t => t.2)
          OverallUsage := boundedSeq 100 (ticks.map fun t => t.1.OverallUsage)
          UserUsage := boundedSeq 100 (ticks.map fun t => t.1.UserUsage)
          SystemUsage := boundedSeq 100 (ticks.map fun t => t.1.SystemUsage)
          IdleUsage := boundedSeq 100 (ticks.map fun t => t.1.IdleUsage)
          CoreUsage := cu
          Temperature := boundedSeq 100 (ticks.map fun t => t.1.Temperature)
          MaxDataPoints := 100
          DataPointCount := min ticks.length 100 } ∧
      cu.length ≤ min ticks.length 100 := by
  induction ticks using List.reverseRecOn with
  | nil => exact ⟨[], rfl, by simp⟩
  | append_singleton ts t ih =>
    obtain ⟨cu, hcu, hclen⟩ := ih
    rw [List.foldl_append, List.foldl_cons, List.foldl_nil, hcu]
    unfold cpuUpdateHistory
    simp only [List.map_append, List.map_cons, List.map_nil]
    have hts : (boundedSeq 100 (ts.map fun t => t.2)).length = min ts.length 100 := by
      rw [boundedSeq_length, List.length_map]
    by_cases hcore : 0 < t.1.Cores.length
    · simp only [if_pos hcore]
      by_cases hlen : ts.length < 100
      · have hcond : ¬ (100 < (boundedSeq 100 (ts.map fun t => t.2) ++ [t.2]).length) := by
          simp [hts]
          omega
        refine ⟨cu ++ [t.1.Cores], ?_, ?_⟩
        · simp only [if_neg hcond]
          rw [boundedSeq_append_of_lt _ (by simp; omega),
            boundedSeq_append_of_lt _ (by simp; omega),
            boundedSeq_append_of_lt _ (by simp; omega),
            boundedSeq_append_of_lt _ (by simp; omega),
            boundedSeq_append_of_lt _ (by simp; omega),
            boundedSeq_append_of_lt _ (by simp; omega)]
          simp [hts]
          omega
        · simp only [List.length_append, List.length_cons, List.length_nil]
          omega
      · push_neg at hlen
        have hcond : 100 < (boundedSeq 100 (ts.map fun t => t.2) ++ [t.2]).length := by
          simp [hts]
          omega
        have hpos : 0 < (cu ++ [t.1.Cores]).length := by simp
        refine ⟨(cu ++ [t.1.Cores]).drop 1, ?_, ?_⟩
        · simp only [if_pos hcond, if_pos hpos]
          rw [boundedSeq_append_of_ge _ (by omega) (by simp; omega),
            boundedSeq_append_of_ge _ (by omega) (by simp; omega),
            boundedSeq_append_of_ge _ (by omega) (by simp; omega),
            boundedSeq_append_of_ge _ (by omega) (by simp; omega),
            boundedSeq_append_of_ge _ (by omega) (by simp; omega),
            boundedSeq_append_of_ge _ (by omega) (by simp; omega)]
          simp [hts]
          omega
        · simp only [List.length_drop, List.length_append, List.length_cons,
            List.length_nil]
          omega
    · simp only [if_neg hcore]
      by_cases hlen : ts.length < 100
      · have hcond : ¬ (100 < (boundedSeq 100 (ts.map fun t => t.2) ++ [t.2]).length) := by
          simp [hts]
          omega
        refine ⟨cu, ?_, ?_⟩
        · simp only [if_neg hcond]
          rw [boundedSeq_append_of_lt _ (by simp; omega),
            boundedSeq_append_of_lt _ (by simp; omega),
            boundedSeq_append_of_lt _ (by simp; omega),
            boundedSeq_append_of_lt _ (by simp; omega),
            boundedSeq_append_of_lt _ (by simp; omega),
            boundedSeq_append_of_lt _ (by simp; omega)]
          simp [hts]
          omega
        · simp only [List.length_append, List.length_cons, List.length_nil]
          omega
      · push_neg at hlen
        have hcond : 100 < (boundedSeq 100 (ts.map fun t => t.2) ++ [t.2]).length := by
          simp [hts]
          omega
        by_cases hc0 : 0 < cu.length
        · refine ⟨cu.drop 1, ?_, ?_⟩
          · simp only [if_pos hcond, if_pos hc0]
            rw [boundedSeq_append_of_ge _ (by omega) (by simp; omega),
              boundedSeq_append_of_ge _ (by omega) (by simp; omega),
              boundedSeq_append_of_ge _ (by omega) (by simp; omega),
              boundedSeq_append_of_ge _ (by omega) (by simp; omega),
              boundedSeq_append_of_ge _ (by omega) (by simp; omega),
              boundedSeq_append_of_ge _ (by omega) (by simp; omega)]
            simp [hts]
            omega
          · simp only [List.length_drop, List.length_append, List.length_cons,
              List.length_nil]
            omega
        · refine ⟨cu, ?_, ?_⟩
          · simp only [if_pos hcond, if_neg hc0]
            rw [boundedSeq_append_of_ge _ (by omega) (by simp; omega),
              boundedSeq_append_of_ge _ (by omega) (by simp; omega),
              boundedSeq_append_of_ge _ (by omega) (by simp; omega),
              boundedSeq_append_of_ge _ (by omega) (by simp; omega),
              boundedSeq_append_of_ge _ (by omega) (by simp; omega),
              boundedSeq_append_of_ge _ (by omega) (by simp; omega)]
            simp [hts]
            omega
          · simp only [List.length_append, List.length_cons, List.length_nil]
            omega

/-! ## C5 — non-finite sample values and the history update -/

/-- A disk provider whose calls all succeed with empty readings (in
particular disk.IOCounters returns an empty map, which is not an
error). -/
def emptyDiskProvider : DiskProvider :=
  { partitionsRes := Except.ok []
    ioCountersRes := Except.ok []
    partitionsTempRes := Except.ok []
    partitionsHealthRes := Except.ok []
    processesRes := Except.ok [] }

/-- C5, counterexample: a tick over zero I/O devices computes
AverageIOPS = 0/0 = NaN and the history update stores it — the IOPS
series advances from empty to [NaN] instead of rejecting the
non-finite value. -/
theorem diskTick_stores_nan_average :
    (CollectDiskMonitorData {} emptyDiskProvider {} 0).2.IOPS = [GoFloat.nan] ∧
    (CollectDiskMonitorData {} emptyDiskProvider {} 0).2.DataPointCount = 1 ∧
    ({} : DiskUsageHistory).IOPS = [] := by
  decide

/-- C5, amended: the disk history update performs no validity check at
all — every tick appends its AverageIOPS value, finite or not, as the
newest point of the IOPS series (the other fields of the tick are
processed the same way).  Hypotheses: a positive capacity and the
collector invariant that the series moves in lockstep with the
timestamp series. -/
theorem diskUpdateHistory_stores_any_value
    (d : DiskMonitorData) (h : DiskUsageHistory) (now : Nat)
    (hmax : 1 ≤ h.MaxDataPoints)
    (hsync : h.IOPS.length = h.Timestamps.length) :
    (diskUpdateHistory d now h).IOPS.getLast? = some d.AverageIOPS := by
  unfold diskUpdateHistory
  by_cases hc : h.MaxDataPoints < (h.Timestamps ++ [now]).length
  · have hlen : 1 ≤ h.IOPS.length := by
      simp only [List.length_append, List.length_cons, List.length_nil] at hc
      omega
    simp only [hc, if_pos]
    rw [List.drop_append_of_le_length (by omega)]
    exact List.getLast?_concat _
  · simp only [hc, if_neg, if_false]
    exact List.getLast?_concat _

/-- C5, amended, witness: a tick whose AverageIOPS is NaN appends NaN
to an empty history. -/
theorem diskUpdateHistory_stores_any_value_witness :
    ((diskUpdateHistory { AverageIOPS := GoFloat.nan } 0 {}).IOPS.getLast?
      = some GoFloat.nan) :=
  diskUpdateHistory_stores_any_value { AverageIOPS := GoFloat.nan } {} 0
    (by decide) (by decide)

/-! ## C6 — provider errors abort the tick and preserve history -/

/-- A bind whose continuation fails on every value fails. -/
theorem except_bind_error_all {α β : Type} (a : Except Unit α)
    (f : α → Except Unit β) (h : ∀ x, f x = Except.error ()) :
    (a >>= f) = Except.error () := by
  cases a with
  | error e => cases e; rfl
  | ok x => exact h x

/-- Some enabled collection step of the disk tick has a failing
provider call. -/
def diskStepFails (cfg : DiskMonitorConfig) (prov : DiskProvider) : Prop :=
  (cfg.ShowPartitions = true ∧ prov.partitionsRes = Except.error ()) ∨
  (cfg.ShowIOStats = true ∧ prov.ioCountersRes = Except.error ()) ∨
  (cfg.ShowTemperature = true ∧ prov.partitionsTempRes = Except.error ()) ∨
  (cfg.ShowHealth = true ∧ prov.partitionsHealthRes = Except.error ()) ∨
  (cfg.ShowProcesses = true ∧ prov.processesRes = Except.error ())

/-- Some enabled collection step of the memory tick has a failing
provider call (the first two steps are not gated). -/
def memStepFails (cfg : MemoryMonitorConfig) (prov : MemoryProvider) : Prop :=
  prov.vmemBasicRes = Except.error () ∨
  prov.vmemBreakdownRes = Except.error () ∨
  (cfg.ShowPerformance = true ∧ prov.vmemPerfRes = Except.error ()) ∨
  (cfg.ShowModules = true ∧ prov.vmemModulesRes = Except.error ()) ∨
  (cfg.ShowSwap = true ∧ prov.swapRes = Except.error ()) ∨
  (cfg.ShowCache = true ∧ prov.vmemCacheRes = Except.error ()) ∨
  (cfg.ShowProcesses = true ∧ prov.processesRes = Except.error ())

/-- A failing enabled step makes the disk collection phase fail. -/
theorem diskCollectSteps_error (cfg : DiskMonitorConfig)
    (prov : DiskProvider) (h : diskStepFails cfg prov) :
    diskCollectSteps cfg prov = Except.error () := by
  unfold diskCollectSteps
  rcases h with ⟨hf, he⟩ | ⟨hf, he⟩ | ⟨hf, he⟩ | ⟨hf, he⟩ | ⟨hf, he⟩
  · have hstep : ∀ d, diskStepPartitions cfg prov d = Except.error () :=
      fun d => by simp [diskStepPartitions, hf, he]
    rw [except_bind_error_all _ _ hstep]
    rfl
  · have hstep : ∀ d, diskStepCounters cfg prov d = Except.error () :=
      fun d => by simp [diskStepCounters, hf, he]
    rw [except_bind_error_all _ _ hstep]
    rfl
  · have hstep : ∀ d, diskStepTemperature cfg prov d = Except.error () :=
      fun d => by simp [diskStepTemperature, hf, he]
    rw [except_bind_error_all _ _ hstep]
    rfl
  · have hstep : ∀ d, diskStepHealth cfg prov d = Except.error () :=
      fun d => by simp [diskStepHealth, hf, he]
    rw [except_bind_error_all _ _ hstep]
    rfl
  · have hstep : ∀ d, diskStepProcesses cfg prov d = Except.error () :=
      fun d => by simp [diskStepProcesses, hf, he]
    rw [except_bind_error_all _ _ hstep]

/-- A failing enabled step makes the memory collection phase fail. -/
theorem memCollectSteps_error (cfg : MemoryMonitorConfig)
    (prov : MemoryProvider) (h : memStepFails cfg prov) :
    memCollectSteps cfg prov = Except.error () := by
  unfold memCollectSteps
  rcases h with he | he | ⟨hf, he⟩ | ⟨hf, he⟩ | ⟨hf, he⟩ | ⟨hf, he⟩ | ⟨hf, he⟩
  · have hstep : ∀ d, memStepBasic prov d = Except.error () :=
      fun d => by simp [memStepBasic, he]
    rw [except_bind_error_all _ _ hstep]
    rfl
  · have hstep : ∀ d, memStepBreakdown prov d = Except.error () :=
      fun d => by simp [memStepBreakdown, he]
    rw [except_bind_error_all _ _ hstep]
    rfl
  · have hstep : ∀ d, memStepPerformance cfg prov d = Except.error () :=
      fun d => by simp [memStepPerformance, hf, he]
    rw [except_bind_error_all _ _ hstep]
    rfl
  · have hstep : ∀ d, memStepModules cfg prov d = Except.error () :=
      fun d => by simp [memStepModules, hf, he]
    rw [except_bind_error_all _ _ hstep]
    rfl
  · have hstep : ∀ d, memStepSwap cfg prov d = Except.error () :=
      fun d => by simp [memStepSwap, hf, he]
    rw [except_bind_error_all _ _ hstep]
    rfl
  · have hstep : ∀ d, memStepCache cfg prov d = Except.error () :=
      fun d => by simp [memStepCache, hf, he]
    rw [except_bind_error_all _ _ hstep]
    rfl
  · have hstep : ∀ d, memStepProcesses cfg prov d = Except.error () :=
      fun d => by simp [memStepProcesses, hf, he]
    rw [except_bind_error_all _ _ hstep]

/-- C6: whenever any enabled collection step of a tick fails, the
top-level collect function returns an error and no report, and the
stored history is returned exactly as it was before the tick: the
history-update step never runs on a failed tick.  This is stated for
both collectors cited by the claim. -/
theorem collect_error_aborts_tick :
    (∀ (cfg : DiskMonitorConfig) (prov : DiskProvider)
        (hist : DiskUsageHistory) (now : Nat), diskStepFails cfg prov →
      (CollectDiskMonitorData cfg prov hist now).1 = Except.error () ∧
      (CollectDiskMonitorData cfg prov hist now).2 = hist) ∧
    (∀ (cfg : MemoryMonitorConfig) (prov : MemoryProvider)
        (hist : MemoryUsageHistory) (now : Nat), memStepFails cfg prov →
      (CollectMemoryMonitorData cfg prov hist now).1 = Except.error () ∧
      (CollectMemoryMonitorData cfg prov hist now).2 = hist) := by
  constructor
  · intro cfg prov hist now h
    have herr := diskCollectSteps_error cfg prov h
    constructor <;> simp [CollectDiskMonitorData, herr]
  · intro cfg prov hist now h
    have herr := memCollectSteps_error cfg prov h
    constructor <;> simp [CollectMemoryMonitorData, herr]

/-- A disk provider whose I/O-counter call fails. -/
def failingDiskProvider : DiskProvider :=
  { emptyDiskProvider with ioCountersRes := Except.error () }

/-- A memory provider whose swap call fails. -/
def failingMemProvider : MemoryProvider :=
  { vmemBasicRes := Except.ok {}, vmemBreakdownRes := Except.ok {}
    vmemPerfRes := Except.ok {}, vmemModulesRes := Except.ok {}
    swapRes := Except.error (), vmemCacheRes := Except.ok {}
    processesRes := Except.ok [] }

/-- C6, witness: a failing I/O-counter call aborts the disk tick and a
failing swap call aborts the memory tick, each leaving the stored
history untouched. -/
theorem collect_error_aborts_tick_witness :
    (CollectDiskMonitorData {} failingDiskProvider {} 0).1 = Except.error () ∧
    (CollectDiskMonitorData {} failingDiskProvider {} 0).2 = ({} : DiskUsageHistory) ∧
    (CollectMemoryMonitorData {} failingMemProvider {} 0).1 = Except.error () ∧
    (CollectMemoryMonitorData {} failingMemProvider {} 0).2 = ({} : MemoryUsageHistory) :=
  ⟨(collect_error_aborts_tick.1 {} failingDiskProvider {} 0
      (Or.inr (Or.inl ⟨rfl, rfl⟩))).1,
   (collect_error_aborts_tick.1 {} failingDiskProvider {} 0
      (Or.inr (Or.inl ⟨rfl, rfl⟩))).2,
   (collect_error_aborts_tick.2 {} failingMemProvider {} 0
      (Or.inr (Or.inr (Or.inr (Or.inr (Or.inl ⟨rfl, rfl⟩)))))).1,
   (collect_error_aborts_tick.2 {} failingMemProvider {} 0
      (Or.inr (Or.inr (Or.inr (Or.inr (Or.inl ⟨rfl, rfl⟩)))))).2⟩

/-- C10, witness: the contract at a two-process input with n = 1. -/
theorem collectTopProcesses_ranking_contract_witness :
    ((collectTopProcesses 1 twoProcessData).TopCPUProcesses.Pairwise
      (fun x y => y.CPUUsage ≤ x.CPUUsage)) ∧
    (collectTopProcesses 1 twoProcessData).TopCPUProcesses.length
      = min 1 twoProcessData.ProcessInfos.length ∧
    (twoProcessData.ProcessInfos.length ≤ 1 →
      (collectTopProcesses 1 twoProcessData).TopCPUProcesses
        = goSortSlice cpuDescLt twoProcessData.ProcessInfos) ∧
    (twoProcessData.ProcessInfos = [] →
      (collectTopProcesses 1 twoProcessData).TopCPUProcesses = []) :=
  collectTopProcesses_ranking_contract twoProcessData 1 (by decide) (by decide)

end SimpleMonitor
